import Mathlib

/-!
Shallow embedding of the stock-processing repository's fetch/decode/orchestrate
core, together with theorems settling the frozen specification claims.

Python values are modelled by the inductive `PyVal`; Python exceptions by
`PyErr` through the `Except` monad.  Each controller method of the source is
translated into a Lean function of the same name, taking the upstream JSON
payload (the value `AsyncSessionManager.request_with_limit` would have
returned) as an explicit argument where the source performs network I/O.
-/

set_option maxHeartbeats 1000000

/-- A Python/JSON value.  `task` models a (completed) `asyncio.Task` object
wrapping its result: the source occasionally stores the task handle itself in
a result dictionary, so tasks must be representable as first-class values. -/
inductive PyVal where
  | none
  | bool (b : Bool)
  | int (n : Int)
  | num (q : Rat)
  | str (s : String)
  | list (xs : List PyVal)
  | dict (kvs : List (String × PyVal))
  | task (result : PyVal)

/-- A raised Python exception, abstracted: `base` is `BaseException(msg)`
(the source raises these for all its own failure checks), the rest are the
interpreter-raised exception classes reachable in the modelled code.
`strRaise` models the source's `raise f'...'` statements, which in Python 3
fail with `TypeError: exceptions must derive from BaseException`. -/
inductive PyErr where
  | base (msg : String)
  | indexError
  | keyError
  | typeError (msg : String)
  | attributeError (msg : String)
  | valueError (msg : String)
  | strRaise (msg : String)
deriving DecidableEq

namespace PyVal

/-- Python truthiness (`bool(v)`). -/
def truthy : PyVal → Bool
  | .none => false
  | .bool b => b
  | .int n => n != 0
  | .num q => q != 0
  | .str s => s ≠ ""
  | .list xs => !xs.isEmpty
  | .dict kvs => !kvs.isEmpty
  | .task _ => true

/-- Python `v is None`. -/
def isNone : PyVal → Bool
  | .none => true
  | _ => false

/-- First binding of key `k` in an association list (keys are unique for
dictionaries built by `dictFromPairs`). -/
def dictLookup (kvs : List (String × PyVal)) (k : String) : Option PyVal :=
  (kvs.find? (fun p => p.1 = k)).map (fun p => p.2)

/-- Python dict insertion: replace in place if the key is present, else
append (preserving insertion order). -/
def dictInsert (kvs : List (String × PyVal)) (k : String) (v : PyVal) :
    List (String × PyVal) :=
  if kvs.any (fun p => p.1 = k) then
    kvs.map (fun p => if p.1 = k then (k, v) else p)
  else kvs ++ [(k, v)]

/-- Build a Python dict (as an ordered association list) from produced pairs,
with Python dict-comprehension semantics for duplicate keys. -/
def dictFromPairs (ps : List (String × PyVal)) : List (String × PyVal) :=
  ps.foldl (fun acc p => dictInsert acc p.1 p.2) []

/-- Python list indexing semantics: negative indices count from the end,
out-of-range indexing is `IndexError`. -/
def listIndex (xs : List PyVal) (i : Int) : Except PyErr PyVal :=
  if h : 0 ≤ i ∧ i < xs.length then
    .ok (xs.get ⟨i.toNat, by omega⟩)
  else if h2 : i < 0 ∧ 0 ≤ i + xs.length then
    .ok (xs.get ⟨(i + xs.length).toNat, by omega⟩)
  else .error .indexError

/-- Python subscript `v[i]`. -/
def subscript (v : PyVal) (i : PyVal) : Except PyErr PyVal :=
  match v, i with
  | .list xs, .int n => listIndex xs n
  | .list xs, .bool b => listIndex xs (if b then 1 else 0)
  | .list _, _ => .error (.typeError "list indices must be integers")
  | .dict kvs, .str s =>
    match dictLookup kvs s with
    | some w => .ok w
    | Option.none => .error .keyError
  | .dict _, _ => .error .keyError
  | _, _ => .error (.typeError "object is not subscriptable")

/-- Python `v.get(k)` (dict method, default `None`). -/
def getMethod (v : PyVal) (k : String) : Except PyErr PyVal :=
  match v with
  | .dict kvs => .ok ((dictLookup kvs k).getD .none)
  | _ => .error (.attributeError "get")

/-- Python `v.items()` (dict method). -/
def items (v : PyVal) : Except PyErr (List (String × PyVal)) :=
  match v with
  | .dict kvs => .ok kvs
  | _ => .error (.attributeError "items")

/-- Python `v.keys()` membership test support: the list of keys of a dict. -/
def keys (v : PyVal) : Except PyErr (List String) :=
  match v with
  | .dict kvs => .ok (kvs.map (fun p => p.1))
  | _ => .error (.attributeError "keys")

/-- Python `len(v)`. -/
def pyLen (v : PyVal) : Except PyErr Int :=
  match v with
  | .str s => .ok s.length
  | .list xs => .ok xs.length
  | .dict kvs => .ok kvs.length
  | _ => .error (.typeError "object has no len")

/-- Python iteration `for x in v` (lists yield elements, dicts yield keys). -/
def iterate (v : PyVal) : Except PyErr (List PyVal) :=
  match v with
  | .list xs => .ok xs
  | .dict kvs => .ok (kvs.map (fun p => .str p.1))
  | _ => .error (.typeError "object is not iterable")

/-- Numeric coercion used by arithmetic (`int` and `bool` promote; `float`
values are modelled as exact rationals). -/
def toRat : PyVal → Except PyErr Rat
  | .int n => .ok n
  | .num q => .ok q
  | .bool b => .ok (if b then 1 else 0)
  | _ => .error (.typeError "unsupported operand type")

/-- Python `float(v)` for the numeric shapes reachable in the modelled code
(string parsing is not exercised by any code path under study). -/
def pyFloat (v : PyVal) : Except PyErr PyVal :=
  match v with
  | .int n => .ok (.num n)
  | .num q => .ok (.num q)
  | .bool b => .ok (.num (if b then 1 else 0))
  | _ => .error (.typeError "float argument")

end PyVal

/-- Python 3 `round` to nearest integer, ties to even, on an exact rational. -/
def pyRound (q : Rat) : Int :=
  let f := q.floor
  let frac := q - (f : Rat)
  if frac < 1/2 then f
  else if (1:Rat)/2 < frac then f + 1
  else if f % 2 = 0 then f else f + 1

namespace AsyncSessionManager

/-- An upstream HTTP response as observed by `request_with_limit`: status
code, the parsed `Retry-After` header when present (the source applies
`int(...)` to it), the reason phrase, and the parsed JSON body that a 200
response would yield. -/
structure HttpResponse where
  status : Nat
  retryAfter : Option Int
  reason : String
  body : PyVal

/-- Observable side effects of `request_with_limit`, in order of occurrence:
clearing the cookie jar, recycling (closing) the shared session, and
sleeping for a back-off duration. -/
inductive Event where
  | clearCookies
  | recycleSession
  | sleep (seconds : Int)
deriving DecidableEq

/-- The raised hard failure `BaseException({'message': 'Request error.',
'status': ..., 'reason': ...})`. -/
structure UpstreamFailure where
  status : Nat
  reason : String
deriving DecidableEq

/-- Shallow embedding of `AsyncSessionManager.request_with_limit(url, retries)`.
The scripted `responses` list supplies, in order, the responses the upstream
returns to successive issuances of the request; the result pairs the ordered
side-effect trace with the returned JSON body.  The semaphore admission and
the URL itself have no bearing on the per-call control flow modelled here.
The empty-responses case is unreachable when the transport always answers. -/
def request_with_limit (retries : Nat) (responses : List HttpResponse) :
    Except UpstreamFailure (List Event × PyVal) :=
  match responses with
  | [] => .error ⟨0, "no response scripted"⟩
  | r :: rest =>
    if r.status = 200 then
      .ok ([.clearCookies], r.body)
    else if r.status = 429 ∧ retries < 1 then
      let retry_after := r.retryAfter.getD 5
      match request_with_limit (retries + 1) rest with
      | .ok (evs, body) =>
        .ok (.clearCookies :: .recycleSession :: .sleep retry_after :: evs, body)
      | .error e => .error e
    else
      .error ⟨r.status, r.reason⟩

end AsyncSessionManager

/-- Days-since-epoch to proleptic-Gregorian civil date (year, month, day);
the standard civil-from-days algorithm. -/
def civilFromDays (z0 : Int) : Int × Int × Int :=
  let z := z0 + 719468
  let era := Int.fdiv z 146097
  let doe := z - era * 146097
  let yoe := Int.fdiv (doe - Int.fdiv doe 1460 + Int.fdiv doe 36524 - Int.fdiv doe 146096) 365
  let y := yoe + era * 400
  let doy := doe - (365 * yoe + Int.fdiv yoe 4 - Int.fdiv yoe 100)
  let mp := Int.fdiv (5 * doy + 2) 153
  let d := doy - Int.fdiv (153 * mp + 2) 5 + 1
  let m := mp + (if mp < 10 then 3 else -9)
  (y + (if m ≤ 2 then 1 else 0), m, d)

/-- Zero-pad a nonnegative integer to two digits. -/
def pad2 (n : Int) : String :=
  if n < 10 then "0" ++ toString n else toString n

/-- Python `datetime.fromtimestamp(ts).strftime('%Y-%m-%d')` for an integer
epoch-second timestamp, made explicit in the host's local-time offset
`tzOffset` (in seconds east of UTC): the local calendar date string. -/
def localDateString (tzOffset : Int) (ts : Int) : String :=
  let civil := civilFromDays (Int.fdiv (ts + tzOffset) 86400)
  toString civil.1 ++ "-" ++ pad2 civil.2.1 ++ "-" ++ pad2 civil.2.2

namespace TimeSeriesDataController

/-- `TimeSeriesDataController.base_url`. -/
def base_url : String :=
  "https://api.stockanalysis.com/api/symbol/\x7basset_type\x7d/\x7bticker\x7d/history?type=chart"

/-- `TimeSeriesDataController.valid_asset_types`. -/
def valid_asset_types : List String := ["s", "e"]

/-- `TimeSeriesDataController.build_url_from_ticker`. -/
def build_url_from_ticker (ticker asset_type : String) : Except PyErr String :=
  if ticker = "" ∨ asset_type = "" then
    .error (.base "Invalid arguments")
  else
    .ok (((base_url.replace "\x7bticker\x7d" ticker).replace "\x7basset_type\x7d" asset_type))

/-- `TimeSeriesDataController.validate_ts_parameters`: raises on an empty
argument or an unknown asset type, returns `True` otherwise. -/
def validate_ts_parameters (ticker asset_type : String) : Except PyErr Bool :=
  if ticker = "" ∨ asset_type = "" then
    .error (.base "Invalid arguments")
  else if ¬ (asset_type ∈ valid_asset_types) then
    .error (.base ("Asset type parameter value " ++ asset_type ++ " is not valid."))
  else .ok true

/-- `TimeSeriesDataController.convert_time_series_entry`: unpack the
`[timestamp_ms, closing_price]` pair, divide the timestamp by `1000.0`,
round (Python bankers rounding), format as a local calendar date, and pair
with `float(closing_price)`.  `tzOffset` makes the host's local timezone
explicit. -/
def convert_time_series_entry (tzOffset : Int) (entry : PyVal) : Except PyErr PyVal := do
  let (timestamp_ms, closing_price) ←
    match entry with
    | .list [a, b] => Except.ok (a, b)
    | .list _ => Except.error (.valueError "unpack")
    | _ => Except.error (.typeError "cannot unpack")
  let msRat ← timestamp_ms.toRat
  let timestamp_s := pyRound (msRat / 1000)
  let date := localDateString tzOffset timestamp_s
  let cp ← PyVal.pyFloat closing_price
  pure (.dict [("date", .str date), ("closing_price", cp)])

/-- `TimeSeriesDataController.get_ts_data_from_url`, taking the parsed JSON
the session manager returns for the built URL: `response_json.get('data',
None)` is returned whether or not it is truthy (both branches return it). -/
def get_ts_data_from_url (response_json : PyVal) : Except PyErr PyVal := do
  let json_data ← response_json.getMethod "data"
  pure json_data

/-- `TimeSeriesDataController.get_asset_ts_data`, with the upstream payload
supplied explicitly.  On a falsy payload the envelope's `data` field receives
the `asyncio.Task` handle itself (`'data': data`), not the awaited value. -/
def get_asset_ts_data (tzOffset : Int) (ticker asset_type : String)
    (response_json : PyVal) : Except PyErr PyVal := do
  let valid ← validate_ts_parameters ticker asset_type
  if ¬ valid then pure .none
  else do
    let _ ← build_url_from_ticker ticker asset_type
    let dres ← get_ts_data_from_url response_json
    let data := PyVal.task dres
    if ¬ dres.truthy then
      pure (.dict [("data_type", .str "time_series"), ("data", data)])
    else do
      let entries ← dres.iterate
      let formatted ← entries.mapM (convert_time_series_entry tzOffset)
      pure (.dict [("data_type", .str "time_series"), ("data", .list formatted)])

end TimeSeriesDataController

/-- Outcome of a full `get_*_data` fetcher call: the returned/raised value and
the number of transport (session-manager) invocations it performed. -/
structure FetchOutcome where
  result : Except PyErr PyVal
  networkCalls : Nat

/-- Python `table.get(key, key)` for the static label tables. -/
def tableGet (tbl : List (String × String)) (k : String) : String :=
  (((tbl.find? (fun p => p.1 = k)).map (fun p => p.2)).getD k)

namespace CashFlowDataController

/-- `CashFlowDataController.cash_flow_keys_to_labels`. -/
def cash_flow_keys_to_labels : List (String × String) := [
  ("datekey", "date_of_financial_data"),
  ("fiscalYear", "fiscal_year"),
  ("fiscalQuarter", "fiscal_quarter"),
  ("netIncomeCF", "net_income_operating_cash_flow_basis"),
  ("totalDepAmorCF", "total_depreciation_amortization"),
  ("sbcomp", "stock_based_compensation"),
  ("changeAR", "change_in_accounts_receivable"),
  ("changeInventory", "change_in_inventory"),
  ("changeAP", "change_in_accounts_payable"),
  ("changeUnearnedRev", "change_in_unearned_revenue"),
  ("changeOtherNetOperAssets", "change_in_other_net_operating_assets"),
  ("otheroperating", "other_operating_cash_flow_items"),
  ("ncfo", "net_cash_from_operating_activities"),
  ("ocfGrowth", "operating_cash_flow_growth"),
  ("capex", "capital_expenditures"),
  ("cashAcquisition", "cash_used_for_acquisitions"),
  ("salePurchaseIntangibles", "sale_purchase_of_intangibles"),
  ("investInSecurities", "investment_in_securities"),
  ("otherinvesting", "other_investing_cash_flow_items"),
  ("ncfi", "net_cash_from_investing_activities"),
  ("debtIssuedShortTerm", "short_term_debt_issued"),
  ("debtIssuedLongTerm", "long_term_debt_issued"),
  ("debtIssuedTotal", "total_debt_issued"),
  ("debtRepaidShortTerm", "short_term_debt_repaid"),
  ("debtRepaidLongTerm", "long_term_debt_repaid"),
  ("debtRepaidTotal", "total_debt_repaid"),
  ("netDebtIssued", "net_debt_issued"),
  ("commonIssued", "common_stock_issued"),
  ("commonRepurchased", "common_stock_repurchased"),
  ("commonDividendCF", "common_dividend_cash_flow"),
  ("otherfinancing", "other_financing_cash_flow_items"),
  ("ncff", "net_cash_from_financing_activities"),
  ("ncf", "net_cash_flow"),
  ("fcf", "free_cash_flow"),
  ("fcfGrowth", "free_cash_flow_growth"),
  ("fcfMargin", "free_cash_flow_margin"),
  ("fcfps", "free_cash_flow_per_share"),
  ("leveredFCF", "levered_free_cash_flow"),
  ("unleveredFCF", "unlevered_free_cash_flow"),
  ("cashInterestPaid", "cash_interest_paid"),
  ("cashTaxesPaid", "cash_taxes_paid"),
  ("changeNetWorkingCapital", "change_in_net_working_capital")]

/-- `CashFlowDataController.convert_keys_to_labels`. -/
def convert_keys_to_labels (entry : PyVal) : Except PyErr PyVal := do
  let its ← entry.items
  pure (.dict (PyVal.dictFromPairs
    (its.map (fun p => (tableGet cash_flow_keys_to_labels p.1, p.2)))))

/-- `CashFlowDataController.get_financial_data_indices`. -/
def get_financial_data_indices (data : PyVal) : Except PyErr PyVal := do
  let d0 ← data.subscript (.int 0)
  let financial_glossary_index ← d0.getMethod "financialData"
  if financial_glossary_index.isNone then .error (.base "No index for financialData was found.")
  else do
    let financial_glossary_object ← data.subscript financial_glossary_index
    if ¬ financial_glossary_object.truthy then
      .error (.base "No object existed at financialData index.")
    else do
      let its ← financial_glossary_object.items
      let pairs ← its.mapM (fun p => do
        let v ← data.subscript p.2
        pure (p.1, v))
      pure (.dict (PyVal.dictFromPairs pairs))

/-- `CashFlowDataController.extract_financial_data`. -/
def extract_financial_data (response_json : PyVal) : Except PyErr PyVal := do
  let nodes ← response_json.getMethod "nodes"
  if ¬ nodes.truthy then .error (.base "Target node does not exist.")
  else do
    let n ← nodes.pyLen
    if n < 3 then .error (.base "Target node does not exist.")
    else do
      let target_node ← nodes.subscript (.int 2)
      let data ← target_node.getMethod "data"
      if ¬ data.truthy then .error (.base "No data was found in the target node.")
      else do
        let financial_data_indices ← get_financial_data_indices data
        if financial_data_indices.isNone then .error (.base "No target financial index node.")
        else do
          let its ← financial_data_indices.items
          let fd ← its.mapM (fun p => do
            let idxs ← p.2.iterate
            let vs ← idxs.mapM (fun ti => data.subscript ti)
            pure (p.1, PyVal.list vs))
          let financial_data := PyVal.dict (PyVal.dictFromPairs fd)
          let formatted ← convert_keys_to_labels financial_data
          pure (.list [formatted])

/-- `CashFlowDataController.fetch_cash_flow_data`, with the session manager's
parsed JSON supplied directly (`raise f'...'` on a falsy payload is a
string raise, hence a `TypeError` at runtime). -/
def fetch_cash_flow_data (response_json : PyVal) : Except PyErr PyVal :=
  if ¬ response_json.truthy then .error (.strRaise "No json for cash_flow data.")
  else extract_financial_data response_json

/-- `CashFlowDataController.get_cash_flow_data`.  The created `asyncio.Task`
object is always truthy, so the `if data:` test always takes the envelope
branch.  Network is touched exactly when the ticker check passes. -/
def get_cash_flow_data (stock_ticker : String) (response_json : PyVal) :
    FetchOutcome :=
  if stock_ticker = "" then
    ⟨.error (.base "No stock ticker provided for cash flow data."), 0⟩
  else
    ⟨do
      let d ← fetch_cash_flow_data response_json
      pure (.dict [("data_type", .str "cash_flow"), ("data", d)]), 1⟩

end CashFlowDataController

namespace IncomeDataController

/-- `IncomeDataController.income_data_keys_to_labels`. -/
def income_data_keys_to_labels : List (String × String) := [
  ("datekey", "date_of_financial_data"),
  ("fiscalYear", "fiscal_year"),
  ("fiscalQuarter", "fiscal_quarter"),
  ("revenue", "total_revenue"),
  ("revenueGrowth", "revenue_growth"),
  ("cor", "cost_of_revenue"),
  ("gp", "gross_profit"),
  ("sgna", "selling_general_and_administrative_expenses"),
  ("rnd", "research_and_development_expenses"),
  ("opex", "total_operating_expenses"),
  ("opinc", "operating_income"),
  ("interestExpense", "interest_expense"),
  ("interestIncome", "interest_income"),
  ("currencyGains", "currency_exchange_gains"),
  ("otherNonOperating", "other_non_operating_income"),
  ("ebtExcl", "earnings_before_tax_excluding_non_recurring_items"),
  ("gainInvestments", "gain_on_investments"),
  ("mergerRestructureCharges", "merger_and_restructuring_charges"),
  ("otherUnusualItems", "other_unusual_items"),
  ("pretax", "pretax_income"),
  ("taxexp", "tax_expense"),
  ("netinc", "net_income"),
  ("netinccmn", "net_income_common_stockholders"),
  ("netIncomeGrowth", "net_income_growth"),
  ("sharesBasic", "basic_shares_outstanding"),
  ("sharesDiluted", "diluted_shares_outstanding"),
  ("sharesYoY", "year_over_year_shares_growth"),
  ("epsBasic", "basic_earnings_per_share"),
  ("epsdil", "diluted_earnings_per_share"),
  ("epsGrowth", "earnings_per_share_growth"),
  ("fcf", "free_cash_flow"),
  ("fcfps", "free_cash_flow_per_share"),
  ("dps", "dividends_per_share"),
  ("dividendGrowth", "dividend_growth"),
  ("grossMargin", "gross_margin"),
  ("operatingMargin", "operating_margin"),
  ("profitMargin", "net_profit_margin"),
  ("fcfMargin", "free_cash_flow_margin"),
  ("taxrate", "effective_tax_rate"),
  ("ebitda", "earnings_before_interest_taxes_depreciation_amortization"),
  ("depAmorEbitda", "depreciation_and_amortization_in_ebitda"),
  ("ebitdaMargin", "ebitda_margin"),
  ("ebit", "earnings_before_interest_and_taxes"),
  ("ebitMargin", "ebit_margin"),
  ("legalSettlements", "legal_settlements"),
  ("payoutratio", "dividend_payout_ratio")]

/-- `IncomeDataController.convert_keys_to_labels`. -/
def convert_keys_to_labels (entry : PyVal) : Except PyErr PyVal := do
  let its ← entry.items
  pure (.dict (PyVal.dictFromPairs
    (its.map (fun p => (tableGet income_data_keys_to_labels p.1, p.2)))))

/-- `IncomeDataController.get_financial_data_indices` (same body as the
cash-flow controller's, duplicated as in the source). -/
def get_financial_data_indices (data : PyVal) : Except PyErr PyVal := do
  let d0 ← data.subscript (.int 0)
  let financial_glossary_index ← d0.getMethod "financialData"
  if financial_glossary_index.isNone then .error (.base "No index for financialData was found.")
  else do
    let financial_glossary_object ← data.subscript financial_glossary_index
    if ¬ financial_glossary_object.truthy then
      .error (.base "No object existed at financialData index.")
    else do
      let its ← financial_glossary_object.items
      let pairs ← its.mapM (fun p => do
        let v ← data.subscript p.2
        pure (p.1, v))
      pure (.dict (PyVal.dictFromPairs pairs))

/-- `IncomeDataController.extract_financial_data`. -/
def extract_financial_data (response_json : PyVal) : Except PyErr PyVal := do
  let nodes ← response_json.getMethod "nodes"
  if ¬ nodes.truthy then .error (.base "Target node does not exist.")
  else do
    let n ← nodes.pyLen
    if n < 3 then .error (.base "Target node does not exist.")
    else do
      let target_node ← nodes.subscript (.int 2)
      let data ← target_node.getMethod "data"
      if ¬ data.truthy then .error (.base "No data was found in the target node.")
      else do
        let financial_data_indices ← get_financial_data_indices data
        if financial_data_indices.isNone then .error (.base "Could not find target index node.")
        else do
          let its ← financial_data_indices.items
          let fd ← its.mapM (fun p => do
            let idxs ← p.2.iterate
            let vs ← idxs.mapM (fun ti => data.subscript ti)
            pure (p.1, PyVal.list vs))
          let financial_data := PyVal.dict (PyVal.dictFromPairs fd)
          let formatted ← convert_keys_to_labels financial_data
          pure (.list [formatted])

/-- `IncomeDataController.fetch_income_data` with the parsed JSON supplied. -/
def fetch_income_data (response_json : PyVal) : Except PyErr PyVal :=
  if ¬ response_json.truthy then .error (.strRaise "No json for income data.")
  else extract_financial_data response_json

/-- `IncomeDataController.get_income_data`: an empty ticker prints a message
and returns `None` without raising and without touching the network; the
`period` parameter only reaches the URL template. -/
def get_income_data (stock_ticker period : String) (response_json : PyVal) :
    FetchOutcome :=
  if stock_ticker = "" then ⟨.ok .none, 0⟩
  else
    let _url := period
    ⟨do
      let d ← fetch_income_data response_json
      pure (.dict [("data_type", .str "income"), ("data", d)]), 1⟩

end IncomeDataController

namespace RatiosDataController

/-- `RatiosDataController.financial_ratios_keys_to_labels`. -/
def financial_ratios_keys_to_labels : List (String × String) := [
  ("datekey", "date_of_financial_data"),
  ("fiscalYear", "fiscal_year"),
  ("fiscalQuarter", "fiscal_quarter"),
  ("marketcap", "market_cap"),
  ("marketCapGrowth", "market_cap_growth"),
  ("ev", "enterprise_value"),
  ("lastCloseRatios", "last_close_ratios"),
  ("pe", "price_to_earnings_ratio"),
  ("ps", "price_to_sales_ratio"),
  ("pb", "price_to_book_ratio"),
  ("pfcf", "price_to_free_cash_flow_ratio"),
  ("pocf", "price_to_operating_cash_flow_ratio"),
  ("evrevenue", "enterprise_value_to_revenue"),
  ("evebitda", "enterprise_value_to_ebitda"),
  ("evebit", "enterprise_value_to_ebit"),
  ("evfcf", "enterprise_value_to_free_cash_flow"),
  ("debtequity", "debt_to_equity_ratio"),
  ("debtebitda", "debt_to_ebitda_ratio"),
  ("debtfcf", "debt_to_free_cash_flow_ratio"),
  ("assetturnover", "asset_turnover_ratio"),
  ("inventoryTurnover", "inventory_turnover_ratio"),
  ("quickRatio", "quick_ratio"),
  ("currentratio", "current_ratio"),
  ("roe", "return_on_equity"),
  ("roa", "return_on_assets"),
  ("roic", "return_on_invested_capital"),
  ("earningsyield", "earnings_yield"),
  ("fcfyield", "free_cash_flow_yield"),
  ("dividendyield", "dividend_yield"),
  ("payoutratio", "payout_ratio"),
  ("buybackyield", "buyback_yield"),
  ("totalreturn", "total_return")]

/-- `RatiosDataController.convert_keys_to_labels`. -/
def convert_keys_to_labels (entry : PyVal) : Except PyErr PyVal := do
  let its ← entry.items
  pure (.dict (PyVal.dictFromPairs
    (its.map (fun p => (tableGet financial_ratios_keys_to_labels p.1, p.2)))))

/-- `RatiosDataController.get_financial_data_indices`. -/
def get_financial_data_indices (data : PyVal) : Except PyErr PyVal := do
  let d0 ← data.subscript (.int 0)
  let financial_glossary_index ← d0.getMethod "financialData"
  if financial_glossary_index.isNone then .error (.base "No index for financialData was found.")
  else do
    let financial_glossary_object ← data.subscript financial_glossary_index
    if ¬ financial_glossary_object.truthy then
      .error (.base "No object existed at financialData index.")
    else do
      let its ← financial_glossary_object.items
      let pairs ← its.mapM (fun p => do
        let v ← data.subscript p.2
        pure (p.1, v))
      pure (.dict (PyVal.dictFromPairs pairs))

/-- `RatiosDataController.extract_financial_data`. -/
def extract_financial_data (response_json : PyVal) : Except PyErr PyVal := do
  let nodes ← response_json.getMethod "nodes"
  if ¬ nodes.truthy then .error (.base "Target node does not exist.")
  else do
    let n ← nodes.pyLen
    if n < 3 then .error (.base "Target node does not exist.")
    else do
      let target_node ← nodes.subscript (.int 2)
      let data ← target_node.getMethod "data"
      if ¬ data.truthy then .error (.base "No data was found in the target node.")
      else do
        let financial_data_indices ← get_financial_data_indices data
        if financial_data_indices.isNone then .error (.base "Could not find target index node.")
        else do
          let its ← financial_data_indices.items
          let fd ← its.mapM (fun p => do
            let idxs ← p.2.iterate
            let vs ← idxs.mapM (fun ti => data.subscript ti)
            pure (p.1, PyVal.list vs))
          let financial_data := PyVal.dict (PyVal.dictFromPairs fd)
          let formatted ← convert_keys_to_labels financial_data
          pure (.list [formatted])

/-- `RatiosDataController.fetch_ratios_data` with the parsed JSON supplied. -/
def fetch_ratios_data (response_json : PyVal) : Except PyErr PyVal :=
  if ¬ response_json.truthy then .error (.strRaise "No json for balance_sheet data.")
  else extract_financial_data response_json

/-- `RatiosDataController.get_ratios_data`: like the income controller, an
empty ticker prints and returns `None` (no raise, no network). -/
def get_ratios_data (stock_ticker : String) (response_json : PyVal) :
    FetchOutcome :=
  if stock_ticker = "" then ⟨.ok .none, 0⟩
  else
    ⟨do
      let d ← fetch_ratios_data response_json
      pure (.dict [("data_type", .str "ratios"), ("data", d)]), 1⟩

end RatiosDataController

namespace RevenueDataController

/-- `RevenueDataController.get_financial_data_indices`: the glossary entry is
looked up under the key `data` (not `financialData`) for this data type. -/
def get_financial_data_indices (data : PyVal) : Except PyErr PyVal := do
  let d0 ← data.subscript (.int 0)
  let financial_glossary_index ← d0.getMethod "data"
  if financial_glossary_index.isNone then .error (.base "No index for data was found.")
  else do
    let financial_glossary_object ← data.subscript financial_glossary_index
    if ¬ financial_glossary_object.truthy then
      .error (.base "No object existed at data index.")
    else do
      let its ← financial_glossary_object.items
      let pairs ← its.mapM (fun p => do
        let v ← data.subscript p.2
        pure (p.1, v))
      pure (.dict (PyVal.dictFromPairs pairs))

/-- `RevenueDataController.extract_financial_data`: each index resolves to a
record whose own field values are resolved by one more indirection; records
whose keys include `limited` are skipped (the filter runs on the resolved
item before its fields are resolved).  The assembled mapping is returned
directly — the label-rename/single-element-list step present in the other
controllers is commented out in the source. -/
def extract_financial_data (response_json : PyVal) : Except PyErr PyVal := do
  let nodes ← response_json.getMethod "nodes"
  if ¬ nodes.truthy then .error (.base "Target node does not exist.")
  else do
    let n ← nodes.pyLen
    if n < 3 then .error (.base "Target node does not exist.")
    else do
      let target_node ← nodes.subscript (.int 2)
      let data ← target_node.getMethod "data"
      if ¬ data.truthy then .error (.base "No data was found in the target node.")
      else do
        let financial_data_indices ← get_financial_data_indices data
        if financial_data_indices.isNone then .error (.base "Could not find target index node.")
        else do
          let its ← financial_data_indices.items
          let fd ← its.mapM (fun p => do
            let idxs ← p.2.iterate
            let itemsList ← idxs.mapM (fun idx => data.subscript idx)
            let resolved ← itemsList.mapM (fun item => do
              let ks ← item.keys
              if ks.contains "limited" then pure Option.none
              else do
                let its2 ← item.items
                let kv ← its2.mapM (fun q => do
                  let v ← data.subscript q.2
                  pure (q.1, v))
                pure (some (PyVal.dict (PyVal.dictFromPairs kv))))
            pure (p.1, PyVal.list (resolved.filterMap id)))
          pure (.dict (PyVal.dictFromPairs fd))

/-- `RevenueDataController.fetch_revenue_data` with the parsed JSON supplied. -/
def fetch_revenue_data (response_json : PyVal) : Except PyErr PyVal :=
  if ¬ response_json.truthy then .error (.strRaise "No json for revenue data.")
  else extract_financial_data response_json

/-- `RevenueDataController.get_revenue_data`. -/
def get_revenue_data (stock_ticker : String) (response_json : PyVal) :
    FetchOutcome :=
  if stock_ticker = "" then
    ⟨.error (.base "No stock ticker provided for cash flow data."), 0⟩
  else
    ⟨do
      let d ← fetch_revenue_data response_json
      pure (.dict [("data_type", .str "revenue"), ("data", d)]), 1⟩

end RevenueDataController

namespace HistoricalDataController

/-- `HistoricalDataController.valid_asset_types`. -/
def valid_asset_types : List String := ["s", "e"]

/-- `HistoricalDataController.valid_periods`. -/
def valid_periods : List String := ["Daily", "Weekly", "Monthly", "Quarterly", "Annual"]

/-- `HistoricalDataController.valid_ranges`. -/
def valid_ranges : List String := ["3M", "6M", "YTD", "1Y", "5Y", "10Y", "Max"]

/-- `HistoricalDataController.json_to_label_map`. -/
def json_to_label_map : List (String × String) := [
  ("t", "date"),
  ("o", "opening_price"),
  ("h", "high_price"),
  ("l", "low_price"),
  ("c", "closing_price"),
  ("v", "volume"),
  ("a", "adjusted_closing_price"),
  ("ch", "price_change")]

/-- `HistoricalDataController.validate_historical_parameters`: raises on an
empty argument or a value outside the allowed sets, returns `True` else. -/
def validate_historical_parameters (ticker asset_type range period : String) :
    Except PyErr Bool :=
  if ticker = "" ∨ asset_type = "" ∨ range = "" ∨ period = "" then
    .error (.base "Invalid arguments")
  else if ¬ (asset_type ∈ valid_asset_types) then
    .error (.base ("Asset type parameter value " ++ asset_type ++ " is not valid."))
  else if ¬ (range ∈ valid_ranges) then
    .error (.base ("Range parameter value " ++ range ++ " is not valid."))
  else if ¬ (period ∈ valid_periods) then
    .error (.base ("Period parameter value " ++ period ++ " is not valid."))
  else .ok true

/-- `HistoricalDataController.base_url`. -/
def base_url : String :=
  "https://api.stockanalysis.com/api/symbol/\x7basset_type\x7d/\x7bticker\x7d/history?range=\x7brange\x7d&period=\x7bperiod\x7d"

/-- `HistoricalDataController.build_url_from_ticker` (the empty-argument
check is a `raise f'...'` string raise). -/
def build_url_from_ticker (ticker asset_type range period : String) :
    Except PyErr String :=
  if ticker = "" ∨ asset_type = "" ∨ range = "" ∨ period = "" then
    .error (.strRaise "Invalid arguments")
  else
    .ok (((((base_url.replace "\x7bticker\x7d" ticker).replace
      "\x7basset_type\x7d" asset_type).replace "\x7brange\x7d" range).replace
      "\x7bperiod\x7d" period))

/-- `HistoricalDataController.convert_keys_to_labels`. -/
def convert_keys_to_labels (entry : PyVal) : Except PyErr PyVal := do
  let its ← entry.items
  pure (.dict (PyVal.dictFromPairs
    (its.map (fun p => (tableGet json_to_label_map p.1, p.2)))))

/-- `HistoricalDataController.get_historical_data_from_url` with the parsed
JSON supplied: a falsy `response_json.get('data', None)` is returned as is;
otherwise its own `data` key is fetched (`json_data.get('data')`). -/
def get_historical_data_from_url (response_json : PyVal) : Except PyErr PyVal := do
  let json_data ← response_json.getMethod "data"
  if ¬ json_data.truthy then pure json_data
  else json_data.getMethod "data"

/-- `HistoricalDataController.get_asset_historical_data`.  Validation and URL
building precede any transport use.  On a falsy payload the envelope's `data`
field receives the `asyncio.Task` handle itself (`'data': data`); otherwise
each entry is relabeled (the comprehension filter `if data != None` compares
the task object and is always true, as is `formatted_data is not None`). -/
def get_asset_historical_data (ticker asset_type range period : String)
    (response_json : PyVal) : FetchOutcome :=
  match validate_historical_parameters ticker asset_type range period with
  | .error e => ⟨.error e, 0⟩
  | .ok valid =>
    if ¬ valid then ⟨.error (.base "Invalid historical parameters for asset data."), 0⟩
    else
      match build_url_from_ticker ticker asset_type range period with
      | .error e => ⟨.error e, 0⟩
      | .ok _url =>
        ⟨do
          let dres ← get_historical_data_from_url response_json
          let data := PyVal.task dres
          if ¬ dres.truthy then
            pure (.dict [("data_type", .str "historical"), ("data", data)])
          else do
            let entries ← dres.iterate
            let formatted ← entries.mapM convert_keys_to_labels
            pure (.dict [("data_type", .str "historical"), ("data", .list formatted)]), 1⟩

end HistoricalDataController

namespace BalanceSheetDataController

/-- Modelled from the spec: `BalanceSheetDataController.extract_financial_data`.
The balance-sheet controller module is imported by `StockDataOrchestrator`
but is not among the provided sources.  Per the spec, the balance-sheet data
type uses the indexed-reference decode strategy with the `financialData`
glossary key, assembling one row of per-field value lists and returning a
single-element list; its static label table is not recoverable from the
spec, so relabeling is the identity here. -/
def extract_financial_data (response_json : PyVal) : Except PyErr PyVal := do
  let nodes ← response_json.getMethod "nodes"
  if ¬ nodes.truthy then .error (.base "Target node does not exist.")
  else do
    let n ← nodes.pyLen
    if n < 3 then .error (.base "Target node does not exist.")
    else do
      let target_node ← nodes.subscript (.int 2)
      let data ← target_node.getMethod "data"
      if ¬ data.truthy then .error (.base "No data was found in the target node.")
      else do
        let d0 ← data.subscript (.int 0)
        let gidxV ← d0.getMethod "financialData"
        if gidxV.isNone then .error (.base "No index for financialData was found.")
        else do
          let glossary ← data.subscript gidxV
          if ¬ glossary.truthy then
            .error (.base "No object existed at financialData index.")
          else do
            let its ← glossary.items
            let fd ← its.mapM (fun p => do
              let idxsV ← data.subscript p.2
              let idxs ← idxsV.iterate
              let vs ← idxs.mapM (fun ti => data.subscript ti)
              pure (p.1, PyVal.list vs))
            pure (.list [.dict (PyVal.dictFromPairs fd)])

/-- Modelled from the spec: `BalanceSheetDataController.get_balance_sheet_data`,
the balance-sheet AssetDataFetcher invoked by the stock orchestrator.  Per the
spec it validates the ticker, fetches via the rate-limited client, decodes,
and returns a `\x7bdata_type, data\x7d` envelope keyed `balance_sheet`. -/
def get_balance_sheet_data (stock_ticker : String) (response_json : PyVal) :
    FetchOutcome :=
  if stock_ticker = "" then
    ⟨.error (.base "No stock ticker provided for balance sheet data."), 0⟩
  else
    ⟨do
      let d ←
        if ¬ response_json.truthy then
          Except.error (.strRaise "No json for balance_sheet data.")
        else extract_financial_data response_json
      pure (.dict [("data_type", .str "balance_sheet"), ("data", d)]), 1⟩

end BalanceSheetDataController

namespace StockDataOrchestrator

/-- `StockDataOrchestrator.compose_stock_data`: fans out the seven fixed
fetches (each given its scripted upstream payload here) and merges the
envelopes into `final['data']` keyed by `data_type`.  `asyncio.gather` with
`return_exceptions=False` propagates any constituent exception and otherwise
yields the results in list order; the embedding sequences the outcomes in
that order, which realises the same all-or-nothing contract. -/
def compose_stock_data (tzOffset : Int) (ticker : String)
    (pHist pTs pBs pCf pInc pRat pRev : PyVal) : Except PyErr PyVal := do
  let r1 ← (HistoricalDataController.get_asset_historical_data ticker "s" "5Y" "Daily" pHist).result
  let r2 ← TimeSeriesDataController.get_asset_ts_data tzOffset ticker "s" pTs
  let r3 ← (BalanceSheetDataController.get_balance_sheet_data ticker pBs).result
  let r4 ← (CashFlowDataController.get_cash_flow_data ticker pCf).result
  let r5 ← (IncomeDataController.get_income_data ticker "quarterly" pInc).result
  let r6 ← (RatiosDataController.get_ratios_data ticker pRat).result
  let r7 ← (RevenueDataController.get_revenue_data ticker pRev).result
  let tasks := [r1, r2, r3, r4, r5, r6, r7]
  let pairs ← tasks.mapM (fun task_data => do
    let dt ← task_data.subscript (.str "data_type")
    let d ← task_data.subscript (.str "data")
    match dt with
    | .str s => Except.ok (s, d)
    | _ => Except.error (.typeError "unsupported envelope key"))
  pure (.dict [("ticker", .str ticker), ("asset_type", .str "stock"),
    ("data", .dict (PyVal.dictFromPairs pairs))])

end StockDataOrchestrator

namespace ETFDataOrchestrator

/-- `ETFDataOrchestrator.compose_etf_data`: the two fixed ETF fetches merged
by `data_type`, all-or-nothing exactly as in the stock orchestrator. -/
def compose_etf_data (tzOffset : Int) (ticker : String)
    (pHist pTs : PyVal) : Except PyErr PyVal := do
  let r1 ← (HistoricalDataController.get_asset_historical_data ticker "e" "5Y" "Daily" pHist).result
  let r2 ← TimeSeriesDataController.get_asset_ts_data tzOffset ticker "e" pTs
  let tasks := [r1, r2]
  let pairs ← tasks.mapM (fun task_data => do
    let dt ← task_data.subscript (.str "data_type")
    let d ← task_data.subscript (.str "data")
    match dt with
    | .str s => Except.ok (s, d)
    | _ => Except.error (.typeError "unsupported envelope key"))
  pure (.dict [("ticker", .str ticker), ("asset_type", .str "etf"),
    ("data", .dict (PyVal.dictFromPairs pairs))])

end ETFDataOrchestrator

/-- Modelled from the spec: resolve one level of indirection — an integer
index into the shared value pool yields the pooled value (junk `none` off the
modelled well-formed shapes, which the theorems exclude by hypothesis). -/
def specResolveIndex (ds : List PyVal) (iv : PyVal) : PyVal :=
  match iv with
  | .int i =>
    match PyVal.listIndex ds i with
    | .ok v => v
    | .error _ => .none
  | _ => .none

/-- Modelled from the spec: resolve every element of an index list into the
shared pool, preserving order (`[data[j] for j in lst]`). -/
def specValuesOfIndexList (ds : List PyVal) (v : PyVal) : List PyVal :=
  match v with
  | .list idxs => idxs.map (specResolveIndex ds)
  | _ => []

/-- Modelled from the spec: the two levels of indirection per field —
glossary index resolves to an index list, each of whose elements resolves to
the actual value (`[data[j] for j in data[i]]`, order preserved). -/
def specFieldValues (ds : List PyVal) (iv : PyVal) : List PyVal :=
  specValuesOfIndexList ds (specResolveIndex ds iv)

/-- Modelled from the spec: the revenue-variant treatment of one resolved
row — a row carrying the sentinel key `limited` is dropped; any other row
record has each of its own field indices resolved one more level. -/
def specRevenueRow (ds : List PyVal) (item : PyVal) : Option PyVal :=
  match item with
  | .dict kvs =>
    if (kvs.map (fun p => p.1)).contains "limited" then Option.none
    else some (.dict (PyVal.dictFromPairs
      (kvs.map (fun q => (q.1, specResolveIndex ds q.2)))))
  | _ => Option.none

/-- Modelled from the spec: resolve an index list to row records, drop the
sentinel-marked rows, and keep the survivors in index-list order. -/
def specRevenueRowsOfIndexList (ds : List PyVal) (v : PyVal) : List PyVal :=
  match v with
  | .list idxs => (idxs.map (specResolveIndex ds)).filterMap (specRevenueRow ds)
  | _ => []

/-- Modelled from the spec: a revenue field's output rows — the index list is
resolved to row records, sentinel-marked rows are excluded, and the surviving
rows keep index-list order. -/
def specRevenueFieldRows (ds : List PyVal) (iv : PyVal) : List PyVal :=
  specRevenueRowsOfIndexList ds (specResolveIndex ds iv)

/-- Whether a decode result is a single-element list (the shape the spec
prescribes for every indexed-strategy output). -/
def isSingletonRowList : Except PyErr PyVal → Bool
  | .ok (.list [_]) => true
  | _ => false

theorem exceptMapM_ok {ε α β : Type} (f : α → Except ε β) (g : α → β) :
    ∀ l : List α, (∀ a ∈ l, f a = .ok (g a)) → l.mapM f = .ok (l.map g)
  | [], _ => rfl
  | a :: as, h => by
    have ha := h a (List.mem_cons_self a as)
    have ih := exceptMapM_ok f g as (fun x hx => h x (List.mem_cons_of_mem a hx))
    simp only [List.mapM_cons, ha, ih, List.map_cons]
    rfl

theorem dictInsert_of_not_mem (acc : List (String × PyVal)) (k : String) (v : PyVal)
    (h : ∀ p ∈ acc, p.1 ≠ k) : PyVal.dictInsert acc k v = acc ++ [(k, v)] := by
  unfold PyVal.dictInsert
  rw [if_neg]
  intro hc
  rw [List.any_eq_true] at hc
  obtain ⟨p, hp, hpk⟩ := hc
  exact h p hp (of_decide_eq_true hpk)

theorem foldl_dictInsert_eq_append :
    ∀ (ps acc : List (String × PyVal)),
    (∀ p ∈ acc, ∀ q ∈ ps, p.1 ≠ q.1) → (ps.map Prod.fst).Nodup →
    ps.foldl (fun a p => PyVal.dictInsert a p.1 p.2) acc = acc ++ ps
  | [], acc, _, _ => by simp
  | (k, v) :: ps, acc, hdisj, hnd => by
    rw [List.foldl_cons]
    have hins := dictInsert_of_not_mem acc k v
      (fun p hp => hdisj p hp (k, v) (List.mem_cons_self _ _))
    rw [hins]
    have hnd' : (ps.map Prod.fst).Nodup := (List.nodup_cons.mp hnd).2
    have hk : k ∉ ps.map Prod.fst := (List.nodup_cons.mp hnd).1
    rw [foldl_dictInsert_eq_append ps (acc ++ [(k, v)]) ?_ hnd']
    · simp
    · intro p hp q hq
      rcases List.mem_append.mp hp with hpa | hpk
      · exact hdisj p hpa q (List.mem_cons_of_mem _ hq)
      · have hpe : p = (k, v) := by simpa using hpk
        subst hpe
        intro hcontra
        have hq1 : q.1 ∈ ps.map Prod.fst := List.mem_map_of_mem Prod.fst hq
        exact hk (by rw [show k = q.1 from hcontra]; exact hq1)

theorem dictFromPairs_self (ps : List (String × PyVal))
    (h : (ps.map Prod.fst).Nodup) : PyVal.dictFromPairs ps = ps := by
  unfold PyVal.dictFromPairs
  rw [foldl_dictInsert_eq_append ps [] (by simp) h]
  simp

theorem listIndex_zero (a : PyVal) (xs : List PyVal) :
    PyVal.listIndex (a :: xs) 0 = .ok a := by
  unfold PyVal.listIndex
  rw [dif_pos ⟨le_refl 0, by simp⟩]
  rfl

theorem listIndex_two (a b c : PyVal) (xs : List PyVal) :
    PyVal.listIndex (a :: b :: c :: xs) 2 = .ok c := by
  unfold PyVal.listIndex
  rw [dif_pos ⟨by omega, by simp only [List.length_cons]; omega⟩]
  rfl

theorem listIndex_ne_nil {ds : List PyVal} {i : Int} {v : PyVal}
    (h : PyVal.listIndex ds i = .ok v) : ds ≠ [] := by
  intro hnil
  subst hnil
  unfold PyVal.listIndex at h
  rw [dif_neg (by simp only [List.length_nil, Nat.cast_zero]; omega),
    dif_neg (by simp only [List.length_nil, Nat.cast_zero]; omega)] at h
  exact Except.noConfusion h

theorem except_bind_ok {ε α β : Type} (a : α) (f : α → Except ε β) :
    (Except.ok a : Except ε α) >>= f = f a := rfl

theorem getMethod_dict (kvs : List (String × PyVal)) (k : String) :
    PyVal.getMethod (.dict kvs) k = .ok ((PyVal.dictLookup kvs k).getD .none) := rfl

theorem items_dict (kvs : List (String × PyVal)) :
    PyVal.items (.dict kvs) = .ok kvs := rfl

theorem subscript_int (ds : List PyVal) (i : Int) :
    PyVal.subscript (.list ds) (.int i) = PyVal.listIndex ds i := rfl

theorem iterate_list (xs : List PyVal) : PyVal.iterate (.list xs) = .ok xs := rfl

theorem truthy_dict_of_ne_nil {kvs : List (String × PyVal)} (h : kvs ≠ []) :
    PyVal.truthy (.dict kvs) = true := by
  simp [PyVal.truthy, h]

theorem income_gfdi_char (ds : List PyVal) (d0kvs gl : List (String × PyVal)) (g : Int)
    (h0 : PyVal.listIndex ds 0 = .ok (.dict d0kvs))
    (hk : PyVal.dictLookup d0kvs "financialData" = some (.int g))
    (hg : PyVal.listIndex ds g = .ok (.dict gl))
    (hgl : gl ≠ [])
    (hfield : ∀ p ∈ gl, PyVal.subscript (.list ds) p.2 = .ok (specResolveIndex ds p.2)) :
    IncomeDataController.get_financial_data_indices (.list ds) =
      .ok (.dict (PyVal.dictFromPairs (gl.map (fun p => (p.1, specResolveIndex ds p.2))))) := by
  have hf : ∀ p ∈ gl,
      (do
        let v ← PyVal.subscript (.list ds) p.2
        pure (p.1, v) : Except PyErr (String × PyVal)) =
        .ok (p.1, specResolveIndex ds p.2) := by
    intro p hp
    rw [hfield p hp]
    rfl
  unfold IncomeDataController.get_financial_data_indices
  rw [subscript_int, h0, except_bind_ok, getMethod_dict, hk]
  simp only [Option.getD_some, except_bind_ok]
  rw [if_neg (show ¬(PyVal.isNone (.int g) = true) from Bool.false_ne_true)]
  rw [subscript_int, hg, except_bind_ok]
  rw [if_neg (show ¬¬(PyVal.truthy (.dict gl) = true) from
    fun hc => hc (truthy_dict_of_ne_nil hgl))]
  rw [items_dict, except_bind_ok]
  rw [exceptMapM_ok _ (fun p => (p.1, specResolveIndex ds p.2)) gl hf]
  rfl

theorem truthy_list_of_ne_nil {xs : List PyVal} (h : xs ≠ []) :
    PyVal.truthy (.list xs) = true := by
  simp [PyVal.truthy, h]

theorem income_extract_char (n0 n1 : PyVal) (rest ds : List PyVal)
    (d0kvs gl : List (String × PyVal)) (g : Int)
    (h0 : PyVal.listIndex ds 0 = .ok (.dict d0kvs))
    (hk : PyVal.dictLookup d0kvs "financialData" = some (.int g))
    (hg : PyVal.listIndex ds g = .ok (.dict gl))
    (hgl : gl ≠ [])
    (hnd : (gl.map Prod.fst).Nodup)
    (hrnd : (gl.map (fun p =>
      tableGet IncomeDataController.income_data_keys_to_labels p.1)).Nodup)
    (hfield : ∀ p ∈ gl,
      PyVal.subscript (.list ds) p.2 = .ok (specResolveIndex ds p.2) ∧
      (∃ idxs, specResolveIndex ds p.2 = .list idxs ∧
        ∀ j ∈ idxs, PyVal.subscript (.list ds) j = .ok (specResolveIndex ds j))) :
    IncomeDataController.extract_financial_data
      (.dict [("nodes", .list (n0 :: n1 :: .dict [("data", .list ds)] :: rest))]) =
      .ok (.list [.dict (gl.map (fun p =>
        (tableGet IncomeDataController.income_data_keys_to_labels p.1,
         PyVal.list (specFieldValues ds p.2))))]) := by
  have hds : ds ≠ [] := listIndex_ne_nil h0
  unfold IncomeDataController.extract_financial_data
  rw [show PyVal.getMethod
      (.dict [("nodes", .list (n0 :: n1 :: .dict [("data", .list ds)] :: rest))]) "nodes" =
      .ok (.list (n0 :: n1 :: .dict [("data", .list ds)] :: rest)) from rfl]
  rw [except_bind_ok]
  rw [if_neg (show
      ¬¬(PyVal.truthy (.list (n0 :: n1 :: .dict [("data", .list ds)] :: rest)) = true) from
    fun hc => hc rfl)]
  rw [show PyVal.pyLen (.list (n0 :: n1 :: .dict [("data", .list ds)] :: rest)) =
      .ok ((n0 :: n1 :: .dict [("data", .list ds)] :: rest).length : Int) from rfl]
  rw [except_bind_ok]
  rw [if_neg (by simp only [List.length_cons]; push_cast; omega)]
  rw [show PyVal.subscript (.list (n0 :: n1 :: .dict [("data", .list ds)] :: rest)) (.int 2) =
      PyVal.listIndex (n0 :: n1 :: .dict [("data", .list ds)] :: rest) 2 from rfl]
  rw [listIndex_two, except_bind_ok]
  rw [show PyVal.getMethod (.dict [("data", .list ds)]) "data" = .ok (.list ds) from rfl]
  rw [except_bind_ok]
  rw [if_neg (show ¬¬(PyVal.truthy (.list ds) = true) from
    fun hc => hc (truthy_list_of_ne_nil hds))]
  rw [income_gfdi_char ds d0kvs gl g h0 hk hg hgl (fun p hp => (hfield p hp).1)]
  rw [except_bind_ok]
  rw [if_neg (show ¬(PyVal.isNone
      (.dict (PyVal.dictFromPairs (gl.map (fun p => (p.1, specResolveIndex ds p.2))))) = true)
    from Bool.false_ne_true)]
  have hkeys : (gl.map (fun p => (p.1, specResolveIndex ds p.2))).map Prod.fst =
      gl.map Prod.fst := by
    rw [List.map_map]
    rfl
  rw [dictFromPairs_self _ (by rw [hkeys]; exact hnd)]
  rw [items_dict, except_bind_ok]
  have houter : ∀ p ∈ gl.map (fun p => (p.1, specResolveIndex ds p.2)),
      (do
        let idxs ← PyVal.iterate p.2
        let vs ← idxs.mapM (fun ti => PyVal.subscript (.list ds) ti)
        pure (p.1, PyVal.list vs) : Except PyErr (String × PyVal)) =
        .ok (p.1, PyVal.list (specValuesOfIndexList ds p.2)) := by
    intro p' hp'
    obtain ⟨p, hp, rfl⟩ := List.mem_map.mp hp'
    obtain ⟨idxs, hidxs, hjs⟩ := (hfield p hp).2
    simp only [hidxs, iterate_list, except_bind_ok]
    rw [exceptMapM_ok _ (specResolveIndex ds) idxs hjs]
    rw [except_bind_ok]
    simp only [specValuesOfIndexList]
    rfl
  rw [exceptMapM_ok _ (fun p => (p.1, PyVal.list (specValuesOfIndexList ds p.2))) _ houter]
  rw [except_bind_ok]
  rw [List.map_map]
  have hcomp : ((fun p : String × PyVal => (p.1, PyVal.list (specValuesOfIndexList ds p.2))) ∘
      (fun p : String × PyVal => (p.1, specResolveIndex ds p.2))) =
      (fun p : String × PyVal => (p.1, PyVal.list (specFieldValues ds p.2))) := rfl
  rw [hcomp]
  have hkeys2 : (gl.map (fun p => (p.1, PyVal.list (specFieldValues ds p.2)))).map Prod.fst =
      gl.map Prod.fst := by
    rw [List.map_map]
    rfl
  rw [dictFromPairs_self _ (by rw [hkeys2]; exact hnd)]
  unfold IncomeDataController.convert_keys_to_labels
  simp only [items_dict, except_bind_ok, pure_bind, List.map_map]
  have hcomp2 : ((fun p : String × PyVal =>
      (tableGet IncomeDataController.income_data_keys_to_labels p.1, p.2)) ∘
      (fun p : String × PyVal => (p.1, PyVal.list (specFieldValues ds p.2)))) =
      (fun p : String × PyVal =>
        (tableGet IncomeDataController.income_data_keys_to_labels p.1,
         PyVal.list (specFieldValues ds p.2))) := rfl
  rw [hcomp2]
  have hkeys3 : (gl.map (fun p =>
      (tableGet IncomeDataController.income_data_keys_to_labels p.1,
       PyVal.list (specFieldValues ds p.2)))).map Prod.fst =
      gl.map (fun p => tableGet IncomeDataController.income_data_keys_to_labels p.1) := by
    rw [List.map_map]
    rfl
  rw [dictFromPairs_self _ (by rw [hkeys3]; exact hrnd)]
  rfl

theorem cash_flow_gfdi_char (ds : List PyVal) (d0kvs gl : List (String × PyVal)) (g : Int)
    (h0 : PyVal.listIndex ds 0 = .ok (.dict d0kvs))
    (hk : PyVal.dictLookup d0kvs "financialData" = some (.int g))
    (hg : PyVal.listIndex ds g = .ok (.dict gl))
    (hgl : gl ≠ [])
    (hfield : ∀ p ∈ gl, PyVal.subscript (.list ds) p.2 = .ok (specResolveIndex ds p.2)) :
    CashFlowDataController.get_financial_data_indices (.list ds) =
      .ok (.dict (PyVal.dictFromPairs (gl.map (fun p => (p.1, specResolveIndex ds p.2))))) := by
  have hf : ∀ p ∈ gl,
      (do
        let v ← PyVal.subscript (.list ds) p.2
        pure (p.1, v) : Except PyErr (String × PyVal)) =
        .ok (p.1, specResolveIndex ds p.2) := by
    intro p hp
    rw [hfield p hp]
    rfl
  unfold CashFlowDataController.get_financial_data_indices
  rw [subscript_int, h0, except_bind_ok, getMethod_dict, hk]
  simp only [Option.getD_some, except_bind_ok]
  rw [if_neg (show ¬(PyVal.isNone (.int g) = true) from Bool.false_ne_true)]
  rw [subscript_int, hg, except_bind_ok]
  rw [if_neg (show ¬¬(PyVal.truthy (.dict gl) = true) from
    fun hc => hc (truthy_dict_of_ne_nil hgl))]
  rw [items_dict, except_bind_ok]
  rw [exceptMapM_ok _ (fun p => (p.1, specResolveIndex ds p.2)) gl hf]
  rfl


theorem cash_flow_extract_char (n0 n1 : PyVal) (rest ds : List PyVal)
    (d0kvs gl : List (String × PyVal)) (g : Int)
    (h0 : PyVal.listIndex ds 0 = .ok (.dict d0kvs))
    (hk : PyVal.dictLookup d0kvs "financialData" = some (.int g))
    (hg : PyVal.listIndex ds g = .ok (.dict gl))
    (hgl : gl ≠ [])
    (hnd : (gl.map Prod.fst).Nodup)
    (hrnd : (gl.map (fun p =>
      tableGet CashFlowDataController.cash_flow_keys_to_labels p.1)).Nodup)
    (hfield : ∀ p ∈ gl,
      PyVal.subscript (.list ds) p.2 = .ok (specResolveIndex ds p.2) ∧
      (∃ idxs, specResolveIndex ds p.2 = .list idxs ∧
        ∀ j ∈ idxs, PyVal.subscript (.list ds) j = .ok (specResolveIndex ds j))) :
    CashFlowDataController.extract_financial_data
      (.dict [("nodes", .list (n0 :: n1 :: .dict [("data", .list ds)] :: rest))]) =
      .ok (.list [.dict (gl.map (fun p =>
        (tableGet CashFlowDataController.cash_flow_keys_to_labels p.1,
         PyVal.list (specFieldValues ds p.2))))]) := by
  have hds : ds ≠ [] := listIndex_ne_nil h0
  unfold CashFlowDataController.extract_financial_data
  rw [show PyVal.getMethod
      (.dict [("nodes", .list (n0 :: n1 :: .dict [("data", .list ds)] :: rest))]) "nodes" =
      .ok (.list (n0 :: n1 :: .dict [("data", .list ds)] :: rest)) from rfl]
  rw [except_bind_ok]
  rw [if_neg (show
      ¬¬(PyVal.truthy (.list (n0 :: n1 :: .dict [("data", .list ds)] :: rest)) = true) from
    fun hc => hc rfl)]
  rw [show PyVal.pyLen (.list (n0 :: n1 :: .dict [("data", .list ds)] :: rest)) =
      .ok ((n0 :: n1 :: .dict [("data", .list ds)] :: rest).length : Int) from rfl]
  rw [except_bind_ok]
  rw [if_neg (by simp only [List.length_cons]; push_cast; omega)]
  rw [show PyVal.subscript (.list (n0 :: n1 :: .dict [("data", .list ds)] :: rest)) (.int 2) =
      PyVal.listIndex (n0 :: n1 :: .dict [("data", .list ds)] :: rest) 2 from rfl]
  rw [listIndex_two, except_bind_ok]
  rw [show PyVal.getMethod (.dict [("data", .list ds)]) "data" = .ok (.list ds) from rfl]
  rw [except_bind_ok]
  rw [if_neg (show ¬¬(PyVal.truthy (.list ds) = true) from
    fun hc => hc (truthy_list_of_ne_nil hds))]
  rw [cash_flow_gfdi_char ds d0kvs gl g h0 hk hg hgl (fun p hp => (hfield p hp).1)]
  rw [except_bind_ok]
  rw [if_neg (show ¬(PyVal.isNone
      (.dict (PyVal.dictFromPairs (gl.map (fun p => (p.1, specResolveIndex ds p.2))))) = true)
    from Bool.false_ne_true)]
  have hkeys : (gl.map (fun p => (p.1, specResolveIndex ds p.2))).map Prod.fst =
      gl.map Prod.fst := by
    rw [List.map_map]
    rfl
  rw [dictFromPairs_self _ (by rw [hkeys]; exact hnd)]
  rw [items_dict, except_bind_ok]
  have houter : ∀ p ∈ gl.map (fun p => (p.1, specResolveIndex ds p.2)),
      (do
        let idxs ← PyVal.iterate p.2
        let vs ← idxs.mapM (fun ti => PyVal.subscript (.list ds) ti)
        pure (p.1, PyVal.list vs) : Except PyErr (String × PyVal)) =
        .ok (p.1, PyVal.list (specValuesOfIndexList ds p.2)) := by
    intro p' hp'
    obtain ⟨p, hp, rfl⟩ := List.mem_map.mp hp'
    obtain ⟨idxs, hidxs, hjs⟩ := (hfield p hp).2
    simp only [hidxs, iterate_list, except_bind_ok]
    rw [exceptMapM_ok _ (specResolveIndex ds) idxs hjs]
    rw [except_bind_ok]
    simp only [specValuesOfIndexList]
    rfl
  rw [exceptMapM_ok _ (fun p => (p.1, PyVal.list (specValuesOfIndexList ds p.2))) _ houter]
  rw [except_bind_ok]
  rw [List.map_map]
  have hcomp : ((fun p : String × PyVal => (p.1, PyVal.list (specValuesOfIndexList ds p.2))) ∘
      (fun p : String × PyVal => (p.1, specResolveIndex ds p.2))) =
      (fun p : String × PyVal => (p.1, PyVal.list (specFieldValues ds p.2))) := rfl
  rw [hcomp]
  have hkeys2 : (gl.map (fun p => (p.1, PyVal.list (specFieldValues ds p.2)))).map Prod.fst =
      gl.map Prod.fst := by
    rw [List.map_map]
    rfl
  rw [dictFromPairs_self _ (by rw [hkeys2]; exact hnd)]
  unfold CashFlowDataController.convert_keys_to_labels
  simp only [items_dict, except_bind_ok, pure_bind, List.map_map]
  have hcomp2 : ((fun p : String × PyVal =>
      (tableGet CashFlowDataController.cash_flow_keys_to_labels p.1, p.2)) ∘
      (fun p : String × PyVal => (p.1, PyVal.list (specFieldValues ds p.2)))) =
      (fun p : String × PyVal =>
        (tableGet CashFlowDataController.cash_flow_keys_to_labels p.1,
         PyVal.list (specFieldValues ds p.2))) := rfl
  rw [hcomp2]
  have hkeys3 : (gl.map (fun p =>
      (tableGet CashFlowDataController.cash_flow_keys_to_labels p.1,
       PyVal.list (specFieldValues ds p.2)))).map Prod.fst =
      gl.map (fun p => tableGet CashFlowDataController.cash_flow_keys_to_labels p.1) := by
    rw [List.map_map]
    rfl
  rw [dictFromPairs_self _ (by rw [hkeys3]; exact hrnd)]
  rfl

theorem ratios_gfdi_char (ds : List PyVal) (d0kvs gl : List (String × PyVal)) (g : Int)
    (h0 : PyVal.listIndex ds 0 = .ok (.dict d0kvs))
    (hk : PyVal.dictLookup d0kvs "financialData" = some (.int g))
    (hg : PyVal.listIndex ds g = .ok (.dict gl))
    (hgl : gl ≠ [])
    (hfield : ∀ p ∈ gl, PyVal.subscript (.list ds) p.2 = .ok (specResolveIndex ds p.2)) :
    RatiosDataController.get_financial_data_indices (.list ds) =
      .ok (.dict (PyVal.dictFromPairs (gl.map (fun p => (p.1, specResolveIndex ds p.2))))) := by
  have hf : ∀ p ∈ gl,
      (do
        let v ← PyVal.subscript (.list ds) p.2
        pure (p.1, v) : Except PyErr (String × PyVal)) =
        .ok (p.1, specResolveIndex ds p.2) := by
    intro p hp
    rw [hfield p hp]
    rfl
  unfold RatiosDataController.get_financial_data_indices
  rw [subscript_int, h0, except_bind_ok, getMethod_dict, hk]
  simp only [Option.getD_some, except_bind_ok]
  rw [if_neg (show ¬(PyVal.isNone (.int g) = true) from Bool.false_ne_true)]
  rw [subscript_int, hg, except_bind_ok]
  rw [if_neg (show ¬¬(PyVal.truthy (.dict gl) = true) from
    fun hc => hc (truthy_dict_of_ne_nil hgl))]
  rw [items_dict, except_bind_ok]
  rw [exceptMapM_ok _ (fun p => (p.1, specResolveIndex ds p.2)) gl hf]
  rfl


theorem ratios_extract_char (n0 n1 : PyVal) (rest ds : List PyVal)
    (d0kvs gl : List (String × PyVal)) (g : Int)
    (h0 : PyVal.listIndex ds 0 = .ok (.dict d0kvs))
    (hk : PyVal.dictLookup d0kvs "financialData" = some (.int g))
    (hg : PyVal.listIndex ds g = .ok (.dict gl))
    (hgl : gl ≠ [])
    (hnd : (gl.map Prod.fst).Nodup)
    (hrnd : (gl.map (fun p =>
      tableGet RatiosDataController.financial_ratios_keys_to_labels p.1)).Nodup)
    (hfield : ∀ p ∈ gl,
      PyVal.subscript (.list ds) p.2 = .ok (specResolveIndex ds p.2) ∧
      (∃ idxs, specResolveIndex ds p.2 = .list idxs ∧
        ∀ j ∈ idxs, PyVal.subscript (.list ds) j = .ok (specResolveIndex ds j))) :
    RatiosDataController.extract_financial_data
      (.dict [("nodes", .list (n0 :: n1 :: .dict [("data", .list ds)] :: rest))]) =
      .ok (.list [.dict (gl.map (fun p =>
        (tableGet RatiosDataController.financial_ratios_keys_to_labels p.1,
         PyVal.list (specFieldValues ds p.2))))]) := by
  have hds : ds ≠ [] := listIndex_ne_nil h0
  unfold RatiosDataController.extract_financial_data
  rw [show PyVal.getMethod
      (.dict [("nodes", .list (n0 :: n1 :: .dict [("data", .list ds)] :: rest))]) "nodes" =
      .ok (.list (n0 :: n1 :: .dict [("data", .list ds)] :: rest)) from rfl]
  rw [except_bind_ok]
  rw [if_neg (show
      ¬¬(PyVal.truthy (.list (n0 :: n1 :: .dict [("data", .list ds)] :: rest)) = true) from
    fun hc => hc rfl)]
  rw [show PyVal.pyLen (.list (n0 :: n1 :: .dict [("data", .list ds)] :: rest)) =
      .ok ((n0 :: n1 :: .dict [("data", .list ds)] :: rest).length : Int) from rfl]
  rw [except_bind_ok]
  rw [if_neg (by simp only [List.length_cons]; push_cast; omega)]
  rw [show PyVal.subscript (.list (n0 :: n1 :: .dict [("data", .list ds)] :: rest)) (.int 2) =
      PyVal.listIndex (n0 :: n1 :: .dict [("data", .list ds)] :: rest) 2 from rfl]
  rw [listIndex_two, except_bind_ok]
  rw [show PyVal.getMethod (.dict [("data", .list ds)]) "data" = .ok (.list ds) from rfl]
  rw [except_bind_ok]
  rw [if_neg (show ¬¬(PyVal.truthy (.list ds) = true) from
    fun hc => hc (truthy_list_of_ne_nil hds))]
  rw [ratios_gfdi_char ds d0kvs gl g h0 hk hg hgl (fun p hp => (hfield p hp).1)]
  rw [except_bind_ok]
  rw [if_neg (show ¬(PyVal.isNone
      (.dict (PyVal.dictFromPairs (gl.map (fun p => (p.1, specResolveIndex ds p.2))))) = true)
    from Bool.false_ne_true)]
  have hkeys : (gl.map (fun p => (p.1, specResolveIndex ds p.2))).map Prod.fst =
      gl.map Prod.fst := by
    rw [List.map_map]
    rfl
  rw [dictFromPairs_self _ (by rw [hkeys]; exact hnd)]
  rw [items_dict, except_bind_ok]
  have houter : ∀ p ∈ gl.map (fun p => (p.1, specResolveIndex ds p.2)),
      (do
        let idxs ← PyVal.iterate p.2
        let vs ← idxs.mapM (fun ti => PyVal.subscript (.list ds) ti)
        pure (p.1, PyVal.list vs) : Except PyErr (String × PyVal)) =
        .ok (p.1, PyVal.list (specValuesOfIndexList ds p.2)) := by
    intro p' hp'
    obtain ⟨p, hp, rfl⟩ := List.mem_map.mp hp'
    obtain ⟨idxs, hidxs, hjs⟩ := (hfield p hp).2
    simp only [hidxs, iterate_list, except_bind_ok]
    rw [exceptMapM_ok _ (specResolveIndex ds) idxs hjs]
    rw [except_bind_ok]
    simp only [specValuesOfIndexList]
    rfl
  rw [exceptMapM_ok _ (fun p => (p.1, PyVal.list (specValuesOfIndexList ds p.2))) _ houter]
  rw [except_bind_ok]
  rw [List.map_map]
  have hcomp : ((fun p : String × PyVal => (p.1, PyVal.list (specValuesOfIndexList ds p.2))) ∘
      (fun p : String × PyVal => (p.1, specResolveIndex ds p.2))) =
      (fun p : String × PyVal => (p.1, PyVal.list (specFieldValues ds p.2))) := rfl
  rw [hcomp]
  have hkeys2 : (gl.map (fun p => (p.1, PyVal.list (specFieldValues ds p.2)))).map Prod.fst =
      gl.map Prod.fst := by
    rw [List.map_map]
    rfl
  rw [dictFromPairs_self _ (by rw [hkeys2]; exact hnd)]
  unfold RatiosDataController.convert_keys_to_labels
  simp only [items_dict, except_bind_ok, pure_bind, List.map_map]
  have hcomp2 : ((fun p : String × PyVal =>
      (tableGet RatiosDataController.financial_ratios_keys_to_labels p.1, p.2)) ∘
      (fun p : String × PyVal => (p.1, PyVal.list (specFieldValues ds p.2)))) =
      (fun p : String × PyVal =>
        (tableGet RatiosDataController.financial_ratios_keys_to_labels p.1,
         PyVal.list (specFieldValues ds p.2))) := rfl
  rw [hcomp2]
  have hkeys3 : (gl.map (fun p =>
      (tableGet RatiosDataController.financial_ratios_keys_to_labels p.1,
       PyVal.list (specFieldValues ds p.2)))).map Prod.fst =
      gl.map (fun p => tableGet RatiosDataController.financial_ratios_keys_to_labels p.1) := by
    rw [List.map_map]
    rfl
  rw [dictFromPairs_self _ (by rw [hkeys3]; exact hrnd)]
  rfl

theorem keys_dict (kvs : List (String × PyVal)) :
    PyVal.keys (.dict kvs) = .ok (kvs.map (fun p => p.1)) := rfl

theorem revenue_gfdi_char (ds : List PyVal) (d0kvs gl : List (String × PyVal)) (g : Int)
    (h0 : PyVal.listIndex ds 0 = .ok (.dict d0kvs))
    (hk : PyVal.dictLookup d0kvs "data" = some (.int g))
    (hg : PyVal.listIndex ds g = .ok (.dict gl))
    (hgl : gl ≠ [])
    (hfield : ∀ p ∈ gl, PyVal.subscript (.list ds) p.2 = .ok (specResolveIndex ds p.2)) :
    RevenueDataController.get_financial_data_indices (.list ds) =
      .ok (.dict (PyVal.dictFromPairs (gl.map (fun p => (p.1, specResolveIndex ds p.2))))) := by
  have hf : ∀ p ∈ gl,
      (do
        let v ← PyVal.subscript (.list ds) p.2
        pure (p.1, v) : Except PyErr (String × PyVal)) =
        .ok (p.1, specResolveIndex ds p.2) := by
    intro p hp
    rw [hfield p hp]
    rfl
  unfold RevenueDataController.get_financial_data_indices
  rw [subscript_int, h0, except_bind_ok, getMethod_dict, hk]
  simp only [Option.getD_some, except_bind_ok]
  rw [if_neg (show ¬(PyVal.isNone (.int g) = true) from Bool.false_ne_true)]
  rw [subscript_int, hg, except_bind_ok]
  rw [if_neg (show ¬¬(PyVal.truthy (.dict gl) = true) from
    fun hc => hc (truthy_dict_of_ne_nil hgl))]
  rw [items_dict, except_bind_ok]
  rw [exceptMapM_ok _ (fun p => (p.1, specResolveIndex ds p.2)) gl hf]
  rfl

theorem revenue_extract_char (n0 n1 : PyVal) (rest ds : List PyVal)
    (d0kvs gl : List (String × PyVal)) (g : Int)
    (h0 : PyVal.listIndex ds 0 = .ok (.dict d0kvs))
    (hk : PyVal.dictLookup d0kvs "data" = some (.int g))
    (hg : PyVal.listIndex ds g = .ok (.dict gl))
    (hgl : gl ≠ [])
    (hnd : (gl.map Prod.fst).Nodup)
    (hfield : ∀ p ∈ gl,
      PyVal.subscript (.list ds) p.2 = .ok (specResolveIndex ds p.2) ∧
      (∃ idxs, specResolveIndex ds p.2 = .list idxs ∧
        ∀ j ∈ idxs,
          PyVal.subscript (.list ds) j = .ok (specResolveIndex ds j) ∧
          ∃ kvs, specResolveIndex ds j = .dict kvs ∧
            ((kvs.map (fun p => p.1)).contains "limited" = true ∨
             ∀ q ∈ kvs, PyVal.subscript (.list ds) q.2 = .ok (specResolveIndex ds q.2)))) :
    RevenueDataController.extract_financial_data
      (.dict [("nodes", .list (n0 :: n1 :: .dict [("data", .list ds)] :: rest))]) =
      .ok (.dict (gl.map (fun p => (p.1, PyVal.list (specRevenueFieldRows ds p.2))))) := by
  have hds : ds ≠ [] := listIndex_ne_nil h0
  unfold RevenueDataController.extract_financial_data
  rw [show PyVal.getMethod
      (.dict [("nodes", .list (n0 :: n1 :: .dict [("data", .list ds)] :: rest))]) "nodes" =
      .ok (.list (n0 :: n1 :: .dict [("data", .list ds)] :: rest)) from rfl]
  rw [except_bind_ok]
  rw [if_neg (show
      ¬¬(PyVal.truthy (.list (n0 :: n1 :: .dict [("data", .list ds)] :: rest)) = true) from
    fun hc => hc rfl)]
  rw [show PyVal.pyLen (.list (n0 :: n1 :: .dict [("data", .list ds)] :: rest)) =
      .ok ((n0 :: n1 :: .dict [("data", .list ds)] :: rest).length : Int) from rfl]
  rw [except_bind_ok]
  rw [if_neg (by simp only [List.length_cons]; push_cast; omega)]
  rw [show PyVal.subscript (.list (n0 :: n1 :: .dict [("data", .list ds)] :: rest)) (.int 2) =
      PyVal.listIndex (n0 :: n1 :: .dict [("data", .list ds)] :: rest) 2 from rfl]
  rw [listIndex_two, except_bind_ok]
  rw [show PyVal.getMethod (.dict [("data", .list ds)]) "data" = .ok (.list ds) from rfl]
  rw [except_bind_ok]
  rw [if_neg (show ¬¬(PyVal.truthy (.list ds) = true) from
    fun hc => hc (truthy_list_of_ne_nil hds))]
  rw [revenue_gfdi_char ds d0kvs gl g h0 hk hg hgl (fun p hp => (hfield p hp).1)]
  rw [except_bind_ok]
  rw [if_neg (show ¬(PyVal.isNone
      (.dict (PyVal.dictFromPairs (gl.map (fun p => (p.1, specResolveIndex ds p.2))))) = true)
    from Bool.false_ne_true)]
  have hkeys : (gl.map (fun p => (p.1, specResolveIndex ds p.2))).map Prod.fst =
      gl.map Prod.fst := by
    rw [List.map_map]
    rfl
  rw [dictFromPairs_self _ (by rw [hkeys]; exact hnd)]
  rw [items_dict, except_bind_ok]
  have houter : ∀ p ∈ gl.map (fun p => (p.1, specResolveIndex ds p.2)),
      (do
        let idxs ← PyVal.iterate p.2
        let itemsList ← idxs.mapM (fun idx => PyVal.subscript (.list ds) idx)
        let resolved ← itemsList.mapM (fun item => do
          let ks ← item.keys
          if ks.contains "limited" then pure Option.none
          else do
            let its2 ← item.items
            let kv ← its2.mapM (fun q => do
              let v ← PyVal.subscript (.list ds) q.2
              pure (q.1, v))
            pure (some (PyVal.dict (PyVal.dictFromPairs kv))))
        pure (p.1, PyVal.list (resolved.filterMap id)) : Except PyErr (String × PyVal)) =
        .ok (p.1, PyVal.list (specRevenueRowsOfIndexList ds p.2)) := by
    intro p' hp'
    obtain ⟨p, hp, rfl⟩ := List.mem_map.mp hp'
    obtain ⟨idxs, hidxs, hjs⟩ := (hfield p hp).2
    simp only [hidxs, iterate_list, except_bind_ok]
    rw [exceptMapM_ok _ (specResolveIndex ds) idxs (fun j hj => (hjs j hj).1)]
    rw [except_bind_ok]
    have hinner : ∀ item ∈ idxs.map (specResolveIndex ds),
        (do
          let ks ← PyVal.keys item
          if ks.contains "limited" then pure Option.none
          else do
            let its2 ← item.items
            let kv ← its2.mapM (fun q => do
              let v ← PyVal.subscript (.list ds) q.2
              pure (q.1, v))
            pure (some (PyVal.dict (PyVal.dictFromPairs kv))) :
          Except PyErr (Option PyVal)) = .ok (specRevenueRow ds item) := by
      intro item hitem
      obtain ⟨j, hj, rfl⟩ := List.mem_map.mp hitem
      obtain ⟨kvs, hkvs, hrow⟩ := (hjs j hj).2
      rw [hkvs, keys_dict, except_bind_ok]
      by_cases hlim : ((kvs.map (fun p => p.1)).contains "limited" = true)
      · rw [if_pos hlim]
        simp only [specRevenueRow, hlim, eq_self_iff_true, if_true]
        rfl
      · rw [if_neg hlim]
        rcases hrow with hrow | hq
        · exact absurd hrow hlim
        · rw [items_dict, except_bind_ok]
          have hkv : ∀ q ∈ kvs,
              (do
                let v ← PyVal.subscript (.list ds) q.2
                pure (q.1, v) : Except PyErr (String × PyVal)) =
                .ok (q.1, specResolveIndex ds q.2) := by
            intro q hqm
            rw [hq q hqm]
            rfl
          rw [exceptMapM_ok _ (fun q => (q.1, specResolveIndex ds q.2)) kvs hkv]
          rw [except_bind_ok]
          simp only [specRevenueRow]
          rw [if_neg hlim]
          rfl
    rw [exceptMapM_ok _ (specRevenueRow ds) _ hinner]
    rw [except_bind_ok]
    rw [List.filterMap_map]
    simp only [Function.id_comp]
    rfl
  rw [exceptMapM_ok _ (fun p => (p.1, PyVal.list (specRevenueRowsOfIndexList ds p.2))) _ houter]
  rw [except_bind_ok]
  rw [List.map_map]
  have hcomp : ((fun p : String × PyVal =>
      (p.1, PyVal.list (specRevenueRowsOfIndexList ds p.2))) ∘
      (fun p : String × PyVal => (p.1, specResolveIndex ds p.2))) =
      (fun p : String × PyVal => (p.1, PyVal.list (specRevenueFieldRows ds p.2))) := rfl
  rw [hcomp]
  have hkeys2 : (gl.map (fun p => (p.1, PyVal.list (specRevenueFieldRows ds p.2)))).map Prod.fst =
      gl.map Prod.fst := by
    rw [List.map_map]
    rfl
  rw [dictFromPairs_self _ (by rw [hkeys2]; exact hnd)]
  rfl

theorem except_bind_error {ε α β : Type} (e : ε) (f : α → Except ε β) :
    (Except.error e : Except ε α) >>= f = .error e := rfl

/-- Whether an `Except` outcome is a success. -/
def exceptIsOk {α : Type} : Except PyErr α → Bool
  | .ok _ => true
  | .error _ => false

/-- C3: on the rate-limited client, a 200 yields the parsed body; a first 429
retries exactly once after recycling the connection context and sleeping for
the Retry-After duration (5 seconds when the header is absent); a 429 on the
retry is a hard failure carrying status and reason; any other non-200 status
is an immediate hard failure with no retry. -/
theorem claim_C3_rate_limited_client :
    (∀ (ra : Option Int) (reason : String) (body : PyVal)
      (rest : List AsyncSessionManager.HttpResponse),
      AsyncSessionManager.request_with_limit 0 (⟨200, ra, reason, body⟩ :: rest) =
        .ok ([.clearCookies], body)) ∧
    (∀ (ra ra2 : Option Int) (r1 r2 : String) (b1 body : PyVal)
      (rest : List AsyncSessionManager.HttpResponse),
      AsyncSessionManager.request_with_limit 0
        (⟨429, ra, r1, b1⟩ :: ⟨200, ra2, r2, body⟩ :: rest) =
        .ok ([.clearCookies, .recycleSession, .sleep (ra.getD 5), .clearCookies], body)) ∧
    (∀ (ra ra2 : Option Int) (r1 r2 : String) (b1 b2 : PyVal)
      (rest : List AsyncSessionManager.HttpResponse),
      AsyncSessionManager.request_with_limit 0
        (⟨429, ra, r1, b1⟩ :: ⟨429, ra2, r2, b2⟩ :: rest) =
        .error ⟨429, r2⟩) ∧
    (∀ (s : Nat) (ra : Option Int) (reason : String) (b : PyVal)
      (rest : List AsyncSessionManager.HttpResponse),
      s ≠ 200 → s ≠ 429 →
      AsyncSessionManager.request_with_limit 0 (⟨s, ra, reason, b⟩ :: rest) =
        .error ⟨s, reason⟩) := by
  refine ⟨fun ra reason body rest => rfl, fun ra ra2 r1 r2 b1 body rest => rfl,
    fun ra ra2 r1 r2 b1 b2 rest => rfl, fun s ra reason b rest h1 h2 => ?_⟩
  unfold AsyncSessionManager.request_with_limit
  rw [if_neg h1, if_neg (fun hc => h2 hc.1)]

/-- C3 witness: concrete runs of the three retry-relevant scenarios plus an
immediate 500 failure. -/
theorem claim_C3_rate_limited_client_witness :
    AsyncSessionManager.request_with_limit 0
      [⟨429, some 7, "Too Many", .none⟩, ⟨200, Option.none, "OK", .str "payload"⟩] =
      .ok ([.clearCookies, .recycleSession, .sleep 7, .clearCookies], .str "payload") ∧
    AsyncSessionManager.request_with_limit 0
      [⟨429, Option.none, "Too Many", .none⟩, ⟨429, Option.none, "Still Throttled", .none⟩] =
      .error ⟨429, "Still Throttled"⟩ ∧
    AsyncSessionManager.request_with_limit 0 [⟨500, Option.none, "Server Error", .none⟩] =
      .error ⟨500, "Server Error"⟩ :=
  ⟨claim_C3_rate_limited_client.2.1 (some 7) Option.none "Too Many" "OK" .none (.str "payload") [],
   claim_C3_rate_limited_client.2.2.1 Option.none Option.none "Too Many" "Still Throttled"
     .none .none [],
   claim_C3_rate_limited_client.2.2.2 500 Option.none "Server Error" .none []
     (by decide) (by decide)⟩

/-- C9: a `[timestamp_ms, closing_price]` time-series entry decodes to the
record pairing the local calendar date of `round(timestamp_ms / 1000)` with
`float(closing_price)`; in particular `[1700000000000, 123.45]` yields the
calendar date of epoch second 1700000000 (2023-11-14 at UTC offset 0) and
closing price 123.45. -/
theorem claim_C9_time_series_pair_decode :
    (∀ (tzOffset ms : Int) (cp : Rat),
      TimeSeriesDataController.convert_time_series_entry tzOffset (.list [.int ms, .num cp]) =
        .ok (.dict [("date", .str (localDateString tzOffset (pyRound ((ms : Rat) / 1000)))),
          ("closing_price", .num cp)])) ∧
    pyRound (((1700000000000 : Int) : Rat) / 1000) = 1700000000 ∧
    TimeSeriesDataController.convert_time_series_entry 0
      (.list [.int 1700000000000, .num (123.45 : Rat)]) =
      .ok (.dict [("date", .str "2023-11-14"), ("closing_price", .num (123.45 : Rat))]) := by
  have hq : (((1700000000000 : Int) : Rat) / 1000) = ((1700000000 : Int) : Rat) := by
    norm_num
  have hfloor : Rat.floor ((1700000000 : Int) : Rat) = 1700000000 := by
    rw [Rat.floor_def', Rat.num_intCast, Rat.den_intCast]
    simp
  have hround : pyRound (((1700000000000 : Int) : Rat) / 1000) = 1700000000 := by
    unfold pyRound
    rw [hq, hfloor]
    norm_num
  refine ⟨fun tzOffset ms cp => rfl, hround, ?_⟩
  have hstep : TimeSeriesDataController.convert_time_series_entry 0
      (.list [.int 1700000000000, .num (123.45 : Rat)]) =
      .ok (.dict
        [("date", .str (localDateString 0 (pyRound (((1700000000000 : Int) : Rat) / 1000)))),
        ("closing_price", .num (123.45 : Rat))]) := rfl
  rw [hstep, hround, show localDateString 0 1700000000 = "2023-11-14" from by decide]

/-- C6: on an empty upstream payload the historical and time-series fetchers
do not fail, but the envelope's `data` field holds the `asyncio.Task` handle
(`'data': data`), not the raw empty value itself — the code contradicts the
specified contract that `data` carries the raw empty value. -/
theorem claim_C6_empty_payload_envelope :
    (HistoricalDataController.get_asset_historical_data "AAPL" "s" "1Y" "Daily"
      (.dict [])).result =
      .ok (.dict [("data_type", .str "historical"), ("data", .task .none)]) ∧
    (HistoricalDataController.get_asset_historical_data "AAPL" "s" "1Y" "Daily"
      (.dict [])).networkCalls = 1 ∧
    TimeSeriesDataController.get_asset_ts_data 0 "AAPL" "s" (.dict []) =
      .ok (.dict [("data_type", .str "time_series"), ("data", .task .none)]) ∧
    PyVal.task .none ≠ PyVal.none :=
  ⟨rfl, rfl, rfl, fun h => PyVal.noConfusion h⟩

theorem listIndex_out_of_bounds (ds : List PyVal) (g : Int)
    (h : (ds.length : Int) ≤ g ∨ g + ds.length < 0) :
    PyVal.listIndex ds g = .error .indexError := by
  unfold PyVal.listIndex
  rw [dif_neg (by omega), dif_neg (by omega)]

/-- C2: the indexed-reference decode raises a hard failure — producing no
partial result — when the node list has fewer than 3 entries, when the target
node (index 2) lacks a `data` field, when `data[0]` lacks the glossary key,
and when the glossary index falls outside the bounds of the data array. -/
theorem claim_C2_decode_failure_modes :
    (∀ (kvs : List (String × PyVal)) (nodesList : List PyVal),
      PyVal.dictLookup kvs "nodes" = some (.list nodesList) → nodesList.length < 3 →
      CashFlowDataController.extract_financial_data (.dict kvs) =
        .error (.base "Target node does not exist.")) ∧
    (∀ (n0 n1 : PyVal) (rest : List PyVal) (n2kvs : List (String × PyVal)),
      PyVal.dictLookup n2kvs "data" = Option.none →
      CashFlowDataController.extract_financial_data
        (.dict [("nodes", .list (n0 :: n1 :: .dict n2kvs :: rest))]) =
        .error (.base "No data was found in the target node.")) ∧
    (∀ (n0 n1 : PyVal) (rest ds : List PyVal) (d0kvs : List (String × PyVal)),
      PyVal.listIndex ds 0 = .ok (.dict d0kvs) →
      PyVal.dictLookup d0kvs "financialData" = Option.none →
      CashFlowDataController.extract_financial_data
        (.dict [("nodes", .list (n0 :: n1 :: .dict [("data", .list ds)] :: rest))]) =
        .error (.base "No index for financialData was found.")) ∧
    (∀ (n0 n1 : PyVal) (rest ds : List PyVal) (d0kvs : List (String × PyVal)) (g : Int),
      PyVal.listIndex ds 0 = .ok (.dict d0kvs) →
      PyVal.dictLookup d0kvs "financialData" = some (.int g) →
      ((ds.length : Int) ≤ g ∨ g + ds.length < 0) →
      CashFlowDataController.extract_financial_data
        (.dict [("nodes", .list (n0 :: n1 :: .dict [("data", .list ds)] :: rest))]) =
        .error .indexError) := by
  refine ⟨?_, ?_, ?_, ?_⟩
  · intro kvs nodesList h hlen
    unfold CashFlowDataController.extract_financial_data
    rw [getMethod_dict, h]
    simp only [Option.getD_some, except_bind_ok]
    cases nodesList with
    | nil =>
      rw [if_pos (show ¬(PyVal.truthy (.list []) = true) from
        fun hc => Bool.false_ne_true hc)]
    | cons a as =>
      rw [if_neg (show ¬¬(PyVal.truthy (.list (a :: as)) = true) from fun hc => hc rfl)]
      rw [show PyVal.pyLen (.list (a :: as)) = .ok ((a :: as).length : Int) from rfl]
      rw [except_bind_ok, if_pos (by omega)]
  · intro n0 n1 rest n2kvs h
    unfold CashFlowDataController.extract_financial_data
    rw [show PyVal.getMethod
        (.dict [("nodes", .list (n0 :: n1 :: .dict n2kvs :: rest))]) "nodes" =
        .ok (.list (n0 :: n1 :: .dict n2kvs :: rest)) from rfl]
    rw [except_bind_ok]
    rw [if_neg (show ¬¬(PyVal.truthy (.list (n0 :: n1 :: .dict n2kvs :: rest)) = true) from
      fun hc => hc rfl)]
    rw [show PyVal.pyLen (.list (n0 :: n1 :: .dict n2kvs :: rest)) =
        .ok ((n0 :: n1 :: .dict n2kvs :: rest).length : Int) from rfl]
    rw [except_bind_ok]
    rw [if_neg (by simp only [List.length_cons]; push_cast; omega)]
    rw [show PyVal.subscript (.list (n0 :: n1 :: .dict n2kvs :: rest)) (.int 2) =
        PyVal.listIndex (n0 :: n1 :: .dict n2kvs :: rest) 2 from rfl]
    rw [listIndex_two, except_bind_ok, getMethod_dict, h]
    simp only [Option.getD_none, except_bind_ok]
    rw [if_pos (show ¬(PyVal.truthy .none = true) from fun hc => Bool.false_ne_true hc)]
  · intro n0 n1 rest ds d0kvs h0 hk
    have hds : ds ≠ [] := listIndex_ne_nil h0
    unfold CashFlowDataController.extract_financial_data
    rw [show PyVal.getMethod
        (.dict [("nodes", .list (n0 :: n1 :: .dict [("data", .list ds)] :: rest))]) "nodes" =
        .ok (.list (n0 :: n1 :: .dict [("data", .list ds)] :: rest)) from rfl]
    rw [except_bind_ok]
    rw [if_neg (show
        ¬¬(PyVal.truthy (.list (n0 :: n1 :: .dict [("data", .list ds)] :: rest)) = true) from
      fun hc => hc rfl)]
    rw [show PyVal.pyLen (.list (n0 :: n1 :: .dict [("data", .list ds)] :: rest)) =
        .ok ((n0 :: n1 :: .dict [("data", .list ds)] :: rest).length : Int) from rfl]
    rw [except_bind_ok]
    rw [if_neg (by simp only [List.length_cons]; push_cast; omega)]
    rw [show PyVal.subscript (.list (n0 :: n1 :: .dict [("data", .list ds)] :: rest)) (.int 2) =
        PyVal.listIndex (n0 :: n1 :: .dict [("data", .list ds)] :: rest) 2 from rfl]
    rw [listIndex_two, except_bind_ok]
    rw [show PyVal.getMethod (.dict [("data", .list ds)]) "data" = .ok (.list ds) from rfl]
    rw [except_bind_ok]
    rw [if_neg (show ¬¬(PyVal.truthy (.list ds) = true) from
      fun hc => hc (truthy_list_of_ne_nil hds))]
    unfold CashFlowDataController.get_financial_data_indices
    rw [subscript_int, h0, except_bind_ok, getMethod_dict, hk]
    simp only [Option.getD_none, except_bind_ok]
    rw [if_pos (show PyVal.isNone .none = true from rfl)]
    rfl
  · intro n0 n1 rest ds d0kvs g h0 hk hg
    have hds : ds ≠ [] := listIndex_ne_nil h0
    unfold CashFlowDataController.extract_financial_data
    rw [show PyVal.getMethod
        (.dict [("nodes", .list (n0 :: n1 :: .dict [("data", .list ds)] :: rest))]) "nodes" =
        .ok (.list (n0 :: n1 :: .dict [("data", .list ds)] :: rest)) from rfl]
    rw [except_bind_ok]
    rw [if_neg (show
        ¬¬(PyVal.truthy (.list (n0 :: n1 :: .dict [("data", .list ds)] :: rest)) = true) from
      fun hc => hc rfl)]
    rw [show PyVal.pyLen (.list (n0 :: n1 :: .dict [("data", .list ds)] :: rest)) =
        .ok ((n0 :: n1 :: .dict [("data", .list ds)] :: rest).length : Int) from rfl]
    rw [except_bind_ok]
    rw [if_neg (by simp only [List.length_cons]; push_cast; omega)]
    rw [show PyVal.subscript (.list (n0 :: n1 :: .dict [("data", .list ds)] :: rest)) (.int 2) =
        PyVal.listIndex (n0 :: n1 :: .dict [("data", .list ds)] :: rest) 2 from rfl]
    rw [listIndex_two, except_bind_ok]
    rw [show PyVal.getMethod (.dict [("data", .list ds)]) "data" = .ok (.list ds) from rfl]
    rw [except_bind_ok]
    rw [if_neg (show ¬¬(PyVal.truthy (.list ds) = true) from
      fun hc => hc (truthy_list_of_ne_nil hds))]
    unfold CashFlowDataController.get_financial_data_indices
    rw [subscript_int, h0, except_bind_ok, getMethod_dict, hk]
    simp only [Option.getD_some, except_bind_ok]
    rw [if_neg (show ¬(PyVal.isNone (.int g) = true) from Bool.false_ne_true)]
    rw [subscript_int, listIndex_out_of_bounds ds g hg]
    rfl

/-- C2 witness: the four failure modes at concrete payloads. -/
theorem claim_C2_decode_failure_modes_witness :
    CashFlowDataController.extract_financial_data
      (.dict [("nodes", .list [.int 0, .int 1])]) =
      .error (.base "Target node does not exist.") ∧
    CashFlowDataController.extract_financial_data
      (.dict [("nodes", .list [.int 0, .int 1, .dict [("other", .int 9)]])]) =
      .error (.base "No data was found in the target node.") ∧
    CashFlowDataController.extract_financial_data
      (.dict [("nodes", .list [.int 0, .int 1, .dict [("data", .list [.dict [("x", .int 1)]])]])]) =
      .error (.base "No index for financialData was found.") ∧
    CashFlowDataController.extract_financial_data
      (.dict [("nodes",
        .list [.int 0, .int 1, .dict [("data", .list [.dict [("financialData", .int 99)]])]])]) =
      .error .indexError :=
  ⟨claim_C2_decode_failure_modes.1 [("nodes", .list [.int 0, .int 1])] [.int 0, .int 1]
     rfl (by decide),
   claim_C2_decode_failure_modes.2.1 (.int 0) (.int 1) [] [("other", .int 9)] rfl,
   claim_C2_decode_failure_modes.2.2.1 (.int 0) (.int 1) [] [.dict [("x", .int 1)]]
     [("x", .int 1)] rfl rfl,
   claim_C2_decode_failure_modes.2.2.2 (.int 0) (.int 1) [] [.dict [("financialData", .int 99)]]
     [("financialData", .int 99)] 99 rfl rfl (by norm_num)⟩

/-- C10: present-but-empty structures are rejected exactly like missing ones,
because the guards test falsiness: an empty `data` array in the target node,
and an empty resolved glossary object, each raise a hard failure instead of
yielding an empty result (shown for the cash-flow decoder and, for the empty
array, the income decoder as well). -/
theorem claim_C10_empty_structures_rejected :
    (∀ (n0 n1 : PyVal) (rest : List PyVal) (n2kvs : List (String × PyVal)),
      PyVal.dictLookup n2kvs "data" = some (.list []) →
      CashFlowDataController.extract_financial_data
        (.dict [("nodes", .list (n0 :: n1 :: .dict n2kvs :: rest))]) =
        .error (.base "No data was found in the target node.")) ∧
    (∀ (n0 n1 : PyVal) (rest ds : List PyVal) (d0kvs : List (String × PyVal)) (g : Int),
      PyVal.listIndex ds 0 = .ok (.dict d0kvs) →
      PyVal.dictLookup d0kvs "financialData" = some (.int g) →
      PyVal.listIndex ds g = .ok (.dict []) →
      CashFlowDataController.extract_financial_data
        (.dict [("nodes", .list (n0 :: n1 :: .dict [("data", .list ds)] :: rest))]) =
        .error (.base "No object existed at financialData index.")) ∧
    (∀ (n0 n1 : PyVal) (rest : List PyVal) (n2kvs : List (String × PyVal)),
      PyVal.dictLookup n2kvs "data" = some (.list []) →
      IncomeDataController.extract_financial_data
        (.dict [("nodes", .list (n0 :: n1 :: .dict n2kvs :: rest))]) =
        .error (.base "No data was found in the target node.")) := by
  refine ⟨?_, ?_, ?_⟩
  · intro n0 n1 rest n2kvs h
    unfold CashFlowDataController.extract_financial_data
    rw [show PyVal.getMethod
        (.dict [("nodes", .list (n0 :: n1 :: .dict n2kvs :: rest))]) "nodes" =
        .ok (.list (n0 :: n1 :: .dict n2kvs :: rest)) from rfl]
    rw [except_bind_ok]
    rw [if_neg (show ¬¬(PyVal.truthy (.list (n0 :: n1 :: .dict n2kvs :: rest)) = true) from
      fun hc => hc rfl)]
    rw [show PyVal.pyLen (.list (n0 :: n1 :: .dict n2kvs :: rest)) =
        .ok ((n0 :: n1 :: .dict n2kvs :: rest).length : Int) from rfl]
    rw [except_bind_ok]
    rw [if_neg (by simp only [List.length_cons]; push_cast; omega)]
    rw [show PyVal.subscript (.list (n0 :: n1 :: .dict n2kvs :: rest)) (.int 2) =
        PyVal.listIndex (n0 :: n1 :: .dict n2kvs :: rest) 2 from rfl]
    rw [listIndex_two, except_bind_ok, getMethod_dict, h]
    simp only [Option.getD_some, except_bind_ok]
    rw [if_pos (show ¬(PyVal.truthy (.list []) = true) from fun hc => Bool.false_ne_true hc)]
  · intro n0 n1 rest ds d0kvs g h0 hk hg
    have hds : ds ≠ [] := listIndex_ne_nil h0
    unfold CashFlowDataController.extract_financial_data
    rw [show PyVal.getMethod
        (.dict [("nodes", .list (n0 :: n1 :: .dict [("data", .list ds)] :: rest))]) "nodes" =
        .ok (.list (n0 :: n1 :: .dict [("data", .list ds)] :: rest)) from rfl]
    rw [except_bind_ok]
    rw [if_neg (show
        ¬¬(PyVal.truthy (.list (n0 :: n1 :: .dict [("data", .list ds)] :: rest)) = true) from
      fun hc => hc rfl)]
    rw [show PyVal.pyLen (.list (n0 :: n1 :: .dict [("data", .list ds)] :: rest)) =
        .ok ((n0 :: n1 :: .dict [("data", .list ds)] :: rest).length : Int) from rfl]
    rw [except_bind_ok]
    rw [if_neg (by simp only [List.length_cons]; push_cast; omega)]
    rw [show PyVal.subscript (.list (n0 :: n1 :: .dict [("data", .list ds)] :: rest)) (.int 2) =
        PyVal.listIndex (n0 :: n1 :: .dict [("data", .list ds)] :: rest) 2 from rfl]
    rw [listIndex_two, except_bind_ok]
    rw [show PyVal.getMethod (.dict [("data", .list ds)]) "data" = .ok (.list ds) from rfl]
    rw [except_bind_ok]
    rw [if_neg (show ¬¬(PyVal.truthy (.list ds) = true) from
      fun hc => hc (truthy_list_of_ne_nil hds))]
    unfold CashFlowDataController.get_financial_data_indices
    rw [subscript_int, h0, except_bind_ok, getMethod_dict, hk]
    simp only [Option.getD_some, except_bind_ok]
    rw [if_neg (show ¬(PyVal.isNone (.int g) = true) from Bool.false_ne_true)]
    rw [subscript_int, hg, except_bind_ok]
    rw [if_pos (show ¬(PyVal.truthy (.dict []) = true) from fun hc => Bool.false_ne_true hc)]
    rfl
  · intro n0 n1 rest n2kvs h
    unfold IncomeDataController.extract_financial_data
    rw [show PyVal.getMethod
        (.dict [("nodes", .list (n0 :: n1 :: .dict n2kvs :: rest))]) "nodes" =
        .ok (.list (n0 :: n1 :: .dict n2kvs :: rest)) from rfl]
    rw [except_bind_ok]
    rw [if_neg (show ¬¬(PyVal.truthy (.list (n0 :: n1 :: .dict n2kvs :: rest)) = true) from
      fun hc => hc rfl)]
    rw [show PyVal.pyLen (.list (n0 :: n1 :: .dict n2kvs :: rest)) =
        .ok ((n0 :: n1 :: .dict n2kvs :: rest).length : Int) from rfl]
    rw [except_bind_ok]
    rw [if_neg (by simp only [List.length_cons]; push_cast; omega)]
    rw [show PyVal.subscript (.list (n0 :: n1 :: .dict n2kvs :: rest)) (.int 2) =
        PyVal.listIndex (n0 :: n1 :: .dict n2kvs :: rest) 2 from rfl]
    rw [listIndex_two, except_bind_ok, getMethod_dict, h]
    simp only [Option.getD_some, except_bind_ok]
    rw [if_pos (show ¬(PyVal.truthy (.list []) = true) from fun hc => Bool.false_ne_true hc)]

/-- C10 witness: empty data array and empty glossary object at concrete
payloads. -/
theorem claim_C10_empty_structures_rejected_witness :
    CashFlowDataController.extract_financial_data
      (.dict [("nodes", .list [.int 0, .int 1, .dict [("data", .list [])]])]) =
      .error (.base "No data was found in the target node.") ∧
    CashFlowDataController.extract_financial_data
      (.dict [("nodes", .list [.int 0, .int 1,
        .dict [("data", .list [.dict [("financialData", .int 1)], .dict []])]])]) =
      .error (.base "No object existed at financialData index.") ∧
    IncomeDataController.extract_financial_data
      (.dict [("nodes", .list [.int 0, .int 1, .dict [("data", .list [])]])]) =
      .error (.base "No data was found in the target node.") :=
  ⟨claim_C10_empty_structures_rejected.1 (.int 0) (.int 1) [] [("data", .list [])] rfl,
   claim_C10_empty_structures_rejected.2.1 (.int 0) (.int 1) []
     [.dict [("financialData", .int 1)], .dict []] [("financialData", .int 1)] 1 rfl rfl rfl,
   claim_C10_empty_structures_rejected.2.2 (.int 0) (.int 1) [] [("data", .list [])] rfl⟩

theorem validate_hist_ok {t a r p : String} {b : Bool}
    (h : HistoricalDataController.validate_historical_parameters t a r p = .ok b) :
    ¬(t = "" ∨ a = "" ∨ r = "" ∨ p = "") ∧
    a ∈ HistoricalDataController.valid_asset_types ∧
    r ∈ HistoricalDataController.valid_ranges ∧
    p ∈ HistoricalDataController.valid_periods := by
  unfold HistoricalDataController.validate_historical_parameters at h
  split_ifs at h with h1 h2 h3 h4
  exact ⟨h1, h2, h3, h4⟩

/-- C5 counterexample: the income fetcher called with an empty ticker does
not fail with any error — it returns `None` (performing no network access),
contradicting the claim that every parameter violation fails with a
`ValidationError`. -/
theorem claim_C5_counterexample_income_empty_ticker :
    IncomeDataController.get_income_data "" "quarterly" (.dict []) =
      ⟨.ok PyVal.none, 0⟩ ∧
    RatiosDataController.get_ratios_data "" (.dict []) = ⟨.ok PyVal.none, 0⟩ :=
  ⟨rfl, rfl⟩

/-- C5 (amended): a call with parameters violating a fetcher's rules never
touches the network; the historical fetcher (and the cash-flow and revenue
fetchers on an empty ticker) raises an error before any transport use, while
the income and ratios fetchers return `None` without raising when given an
empty ticker. -/
theorem claim_C5_validation_before_network :
    (∀ (t a r p : String) (payload : PyVal),
      (t = "" ∨ a = "" ∨ r = "" ∨ p = "" ∨
        a ∉ HistoricalDataController.valid_asset_types ∨
        r ∉ HistoricalDataController.valid_ranges ∨
        p ∉ HistoricalDataController.valid_periods) →
      (HistoricalDataController.get_asset_historical_data t a r p payload).networkCalls = 0 ∧
      exceptIsOk (HistoricalDataController.get_asset_historical_data t a r p payload).result =
        false) ∧
    (∀ (period : String) (payload : PyVal),
      IncomeDataController.get_income_data "" period payload = ⟨.ok PyVal.none, 0⟩) ∧
    (∀ payload : PyVal,
      RatiosDataController.get_ratios_data "" payload = ⟨.ok PyVal.none, 0⟩) ∧
    (∀ payload : PyVal,
      CashFlowDataController.get_cash_flow_data "" payload =
        ⟨.error (.base "No stock ticker provided for cash flow data."), 0⟩) ∧
    (∀ payload : PyVal,
      RevenueDataController.get_revenue_data "" payload =
        ⟨.error (.base "No stock ticker provided for cash flow data."), 0⟩) := by
  refine ⟨?_, fun period payload => rfl, fun payload => rfl, fun payload => rfl,
    fun payload => rfl⟩
  intro t a r p payload hviol
  unfold HistoricalDataController.get_asset_historical_data
  cases hv : HistoricalDataController.validate_historical_parameters t a r p with
  | error e => exact ⟨rfl, rfl⟩
  | ok b =>
    obtain ⟨hne, ha, hr, hp⟩ := validate_hist_ok hv
    rcases hviol with h | h | h | h | h | h | h
    · exact absurd (Or.inl h) hne
    · exact absurd (Or.inr (Or.inl h)) hne
    · exact absurd (Or.inr (Or.inr (Or.inl h))) hne
    · exact absurd (Or.inr (Or.inr (Or.inr h))) hne
    · exact absurd ha h
    · exact absurd hr h
    · exact absurd hp h

/-- C5 witness: a range of `2Y` is rejected by the historical fetcher with no
transport use. -/
theorem claim_C5_validation_before_network_witness :
    (HistoricalDataController.get_asset_historical_data "AAPL" "s" "2Y" "Daily"
      (.dict [])).networkCalls = 0 ∧
    exceptIsOk (HistoricalDataController.get_asset_historical_data "AAPL" "s" "2Y" "Daily"
      (.dict [])).result = false ∧
    IncomeDataController.get_income_data "" "quarterly" (.dict []) = ⟨.ok PyVal.none, 0⟩ :=
  ⟨(claim_C5_validation_before_network.1 "AAPL" "s" "2Y" "Daily" (.dict [])
      (Or.inr (Or.inr (Or.inr (Or.inr (Or.inr (Or.inl (by decide)))))))).1,
   (claim_C5_validation_before_network.1 "AAPL" "s" "2Y" "Daily" (.dict [])
      (Or.inr (Or.inr (Or.inr (Or.inr (Or.inr (Or.inl (by decide)))))))).2,
   claim_C5_validation_before_network.2.1 "quarterly" (.dict [])⟩

/-- C1: for every indexed-reference payload whose `data[0]` maps the glossary
key to an index `g` with `data[g]` a field-name→index mapping, the income
decoder performs two levels of indirection — each field resolves through its
index list to `[data[j] for j in data[i]]`, order preserved — and the label
table is applied to the assembled field names. -/
theorem claim_C1_two_level_indirection (n0 n1 : PyVal) (rest ds : List PyVal)
    (d0kvs gl : List (String × PyVal)) (g : Int)
    (h0 : PyVal.listIndex ds 0 = .ok (.dict d0kvs))
    (hk : PyVal.dictLookup d0kvs "financialData" = some (.int g))
    (hg : PyVal.listIndex ds g = .ok (.dict gl))
    (hgl : gl ≠ [])
    (hnd : (gl.map Prod.fst).Nodup)
    (hrnd : (gl.map (fun p =>
      tableGet IncomeDataController.income_data_keys_to_labels p.1)).Nodup)
    (hfield : ∀ p ∈ gl,
      PyVal.subscript (.list ds) p.2 = .ok (specResolveIndex ds p.2) ∧
      (∃ idxs, specResolveIndex ds p.2 = .list idxs ∧
        ∀ j ∈ idxs, PyVal.subscript (.list ds) j = .ok (specResolveIndex ds j))) :
    IncomeDataController.extract_financial_data
      (.dict [("nodes", .list (n0 :: n1 :: .dict [("data", .list ds)] :: rest))]) =
      .ok (.list [.dict (gl.map (fun p =>
        (tableGet IncomeDataController.income_data_keys_to_labels p.1,
         PyVal.list (specFieldValues ds p.2))))]) :=
  income_extract_char n0 n1 rest ds d0kvs gl g h0 hk hg hgl hnd hrnd hfield

/-- C1 witness: the glossary `revenue ↦ 5`, index list `data[5] = [10, 11]`,
`data[10] = 100`, `data[11] = 200` decodes to
`total_revenue ↦ [100, 200]` after label rename. -/
theorem claim_C1_two_level_indirection_witness :
    IncomeDataController.extract_financial_data
      (.dict [("nodes", .list [.int 0, .int 0, .dict [("data", .list
        [.dict [("financialData", .int 1)],
         .dict [("revenue", .int 5)],
         .int 0, .int 0, .int 0,
         .list [.int 10, .int 11],
         .int 0, .int 0, .int 0, .int 0,
         .int 100, .int 200])]])]) =
      .ok (.list [.dict [("total_revenue", .list [.int 100, .int 200])]]) := by
  have h := claim_C1_two_level_indirection (.int 0) (.int 0) []
    [.dict [("financialData", .int 1)],
     .dict [("revenue", .int 5)],
     .int 0, .int 0, .int 0,
     .list [.int 10, .int 11],
     .int 0, .int 0, .int 0, .int 0,
     .int 100, .int 200]
    [("financialData", .int 1)] [("revenue", .int 5)] 1 rfl rfl rfl
    (by simp) (by simp) (by simp)
    (by
      intro p hp
      simp only [List.mem_singleton] at hp
      subst hp
      refine ⟨rfl, [.int 10, .int 11], rfl, ?_⟩
      intro j hj
      simp only [List.mem_cons, List.not_mem_nil, or_false] at hj
      rcases hj with rfl | rfl
      · rfl
      · rfl)
  exact h.trans rfl

/-- C4 counterexample: on a well-formed indexed revenue payload the revenue
decoder returns the bare assembled mapping — with its raw upstream field
names and no single-element list wrapper — falsifying the claim that every
indexed-strategy data type relabels the mapping and wraps it in a
single-element list. -/
theorem claim_C4_counterexample_revenue_shape :
    RevenueDataController.extract_financial_data
      (.dict [("nodes", .list [.int 0, .int 0, .dict [("data", .list
        [.dict [("data", .int 1)],
         .dict [("revenueQ", .int 3)],
         .int 0,
         .list [.int 5, .int 7],
         .int 0,
         .dict [("rev", .int 9)],
         .int 0,
         .dict [("limited", .int 9)],
         .int 0,
         .int 42])]])]) =
      .ok (.dict [("revenueQ", .list [.dict [("rev", .int 42)]])]) ∧
    isSingletonRowList (RevenueDataController.extract_financial_data
      (.dict [("nodes", .list [.int 0, .int 0, .dict [("data", .list
        [.dict [("data", .int 1)],
         .dict [("revenueQ", .int 3)],
         .int 0,
         .list [.int 5, .int 7],
         .int 0,
         .dict [("rev", .int 9)],
         .int 0,
         .dict [("limited", .int 9)],
         .int 0,
         .int 42])]])])) = false :=
  ⟨rfl, rfl⟩

/-- C4 (amended): for the cash-flow and ratios data types (and income, per
the C1 theorem) the static label table is applied to the assembled mapping's
field names and the decode result is a single-element list containing that
relabeled mapping; the revenue data type instead returns the assembled
mapping directly, unrenamed and without the single-element list wrapper. -/
theorem claim_C4_indexed_output_shape :
    (∀ (n0 n1 : PyVal) (rest ds : List PyVal)
      (d0kvs gl : List (String × PyVal)) (g : Int),
      PyVal.listIndex ds 0 = .ok (.dict d0kvs) →
      PyVal.dictLookup d0kvs "financialData" = some (.int g) →
      PyVal.listIndex ds g = .ok (.dict gl) →
      gl ≠ [] →
      (gl.map Prod.fst).Nodup →
      (gl.map (fun p =>
        tableGet CashFlowDataController.cash_flow_keys_to_labels p.1)).Nodup →
      (∀ p ∈ gl,
        PyVal.subscript (.list ds) p.2 = .ok (specResolveIndex ds p.2) ∧
        (∃ idxs, specResolveIndex ds p.2 = .list idxs ∧
          ∀ j ∈ idxs, PyVal.subscript (.list ds) j = .ok (specResolveIndex ds j))) →
      CashFlowDataController.extract_financial_data
        (.dict [("nodes", .list (n0 :: n1 :: .dict [("data", .list ds)] :: rest))]) =
        .ok (.list [.dict (gl.map (fun p =>
          (tableGet CashFlowDataController.cash_flow_keys_to_labels p.1,
           PyVal.list (specFieldValues ds p.2))))])) ∧
    (∀ (n0 n1 : PyVal) (rest ds : List PyVal)
      (d0kvs gl : List (String × PyVal)) (g : Int),
      PyVal.listIndex ds 0 = .ok (.dict d0kvs) →
      PyVal.dictLookup d0kvs "financialData" = some (.int g) →
      PyVal.listIndex ds g = .ok (.dict gl) →
      gl ≠ [] →
      (gl.map Prod.fst).Nodup →
      (gl.map (fun p =>
        tableGet RatiosDataController.financial_ratios_keys_to_labels p.1)).Nodup →
      (∀ p ∈ gl,
        PyVal.subscript (.list ds) p.2 = .ok (specResolveIndex ds p.2) ∧
        (∃ idxs, specResolveIndex ds p.2 = .list idxs ∧
          ∀ j ∈ idxs, PyVal.subscript (.list ds) j = .ok (specResolveIndex ds j))) →
      RatiosDataController.extract_financial_data
        (.dict [("nodes", .list (n0 :: n1 :: .dict [("data", .list ds)] :: rest))]) =
        .ok (.list [.dict (gl.map (fun p =>
          (tableGet RatiosDataController.financial_ratios_keys_to_labels p.1,
           PyVal.list (specFieldValues ds p.2))))])) ∧
    (∀ (n0 n1 : PyVal) (rest ds : List PyVal)
      (d0kvs gl : List (String × PyVal)) (g : Int),
      PyVal.listIndex ds 0 = .ok (.dict d0kvs) →
      PyVal.dictLookup d0kvs "data" = some (.int g) →
      PyVal.listIndex ds g = .ok (.dict gl) →
      gl ≠ [] →
      (gl.map Prod.fst).Nodup →
      (∀ p ∈ gl,
        PyVal.subscript (.list ds) p.2 = .ok (specResolveIndex ds p.2) ∧
        (∃ idxs, specResolveIndex ds p.2 = .list idxs ∧
          ∀ j ∈ idxs,
            PyVal.subscript (.list ds) j = .ok (specResolveIndex ds j) ∧
            ∃ kvs, specResolveIndex ds j = .dict kvs ∧
              ((kvs.map (fun p => p.1)).contains "limited" = true ∨
               ∀ q ∈ kvs, PyVal.subscript (.list ds) q.2 = .ok (specResolveIndex ds q.2)))) →
      RevenueDataController.extract_financial_data
        (.dict [("nodes", .list (n0 :: n1 :: .dict [("data", .list ds)] :: rest))]) =
        .ok (.dict (gl.map (fun p => (p.1, PyVal.list (specRevenueFieldRows ds p.2))))) ∧
      isSingletonRowList (RevenueDataController.extract_financial_data
        (.dict [("nodes", .list (n0 :: n1 :: .dict [("data", .list ds)] :: rest))])) =
        false) := by
  refine ⟨cash_flow_extract_char, ratios_extract_char, ?_⟩
  intro n0 n1 rest ds d0kvs gl g h0 hk hg hgl hnd hfield
  have h := revenue_extract_char n0 n1 rest ds d0kvs gl g h0 hk hg hgl hnd hfield
  refine ⟨h, ?_⟩
  rw [h]
  rfl

/-- C4 witness: concrete cash-flow, ratios, and revenue payloads showing the
relabeled single-row wrapper for the former two and the bare mapping for
revenue. -/
theorem claim_C4_indexed_output_shape_witness :
    CashFlowDataController.extract_financial_data
      (.dict [("nodes", .list [.int 0, .int 0, .dict [("data", .list
        [.dict [("financialData", .int 1)],
         .dict [("datekey", .int 5)],
         .int 0, .int 0, .int 0,
         .list [.int 10, .int 11],
         .int 0, .int 0, .int 0, .int 0,
         .int 100, .int 200])]])]) =
      .ok (.list [.dict [("date_of_financial_data", .list [.int 100, .int 200])]]) ∧
    RatiosDataController.extract_financial_data
      (.dict [("nodes", .list [.int 0, .int 0, .dict [("data", .list
        [.dict [("financialData", .int 1)],
         .dict [("pe", .int 5)],
         .int 0, .int 0, .int 0,
         .list [.int 10, .int 11],
         .int 0, .int 0, .int 0, .int 0,
         .int 100, .int 200])]])]) =
      .ok (.list [.dict [("price_to_earnings_ratio", .list [.int 100, .int 200])]]) ∧
    RevenueDataController.extract_financial_data
      (.dict [("nodes", .list [.int 0, .int 0, .dict [("data", .list
        [.dict [("data", .int 1)],
         .dict [("revenueQ", .int 3)],
         .int 0,
         .list [.int 5],
         .int 0,
         .dict [("rev", .int 9)],
         .int 0, .int 0, .int 0,
         .int 42])]])]) =
      .ok (.dict [("revenueQ", .list [.dict [("rev", .int 42)]])]) := by
  refine ⟨?_, ?_, ?_⟩
  · have h := claim_C4_indexed_output_shape.1 (.int 0) (.int 0) []
      [.dict [("financialData", .int 1)],
       .dict [("datekey", .int 5)],
       .int 0, .int 0, .int 0,
       .list [.int 10, .int 11],
       .int 0, .int 0, .int 0, .int 0,
       .int 100, .int 200]
      [("financialData", .int 1)] [("datekey", .int 5)] 1 rfl rfl rfl
      (by simp) (by simp) (by simp)
      (by
        intro p hp
        simp only [List.mem_singleton] at hp
        subst hp
        refine ⟨rfl, [.int 10, .int 11], rfl, ?_⟩
        intro j hj
        simp only [List.mem_cons, List.not_mem_nil, or_false] at hj
        rcases hj with rfl | rfl
        · rfl
        · rfl)
    exact h.trans rfl
  · have h := claim_C4_indexed_output_shape.2.1 (.int 0) (.int 0) []
      [.dict [("financialData", .int 1)],
       .dict [("pe", .int 5)],
       .int 0, .int 0, .int 0,
       .list [.int 10, .int 11],
       .int 0, .int 0, .int 0, .int 0,
       .int 100, .int 200]
      [("financialData", .int 1)] [("pe", .int 5)] 1 rfl rfl rfl
      (by simp) (by simp) (by simp)
      (by
        intro p hp
        simp only [List.mem_singleton] at hp
        subst hp
        refine ⟨rfl, [.int 10, .int 11], rfl, ?_⟩
        intro j hj
        simp only [List.mem_cons, List.not_mem_nil, or_false] at hj
        rcases hj with rfl | rfl
        · rfl
        · rfl)
    exact h.trans rfl
  · have h := (claim_C4_indexed_output_shape.2.2 (.int 0) (.int 0) []
      [.dict [("data", .int 1)],
       .dict [("revenueQ", .int 3)],
       .int 0,
       .list [.int 5],
       .int 0,
       .dict [("rev", .int 9)],
       .int 0, .int 0, .int 0,
       .int 42]
      [("data", .int 1)] [("revenueQ", .int 3)] 1 rfl rfl rfl
      (by simp) (by simp)
      (by
        intro p hp
        simp only [List.mem_singleton] at hp
        subst hp
        refine ⟨rfl, [.int 5], rfl, ?_⟩
        intro j hj
        simp only [List.mem_cons, List.not_mem_nil, or_false] at hj
        subst hj
        refine ⟨rfl, [("rev", .int 9)], rfl, Or.inr ?_⟩
        intro q hq
        simp only [List.mem_singleton] at hq
        subst hq
        rfl)).1
    exact h.trans rfl

/-- C7: in the revenue decoder each value resolved from the index list is a
record whose own field values are indices resolved one more level, every
resolved record carrying the sentinel key `limited` is excluded, and the
records lacking that key are kept in index-list order (the conclusion's
`specRevenueFieldRows` is exactly that resolve-filter-keep pipeline). -/
theorem claim_C7_revenue_inner_records (n0 n1 : PyVal) (rest ds : List PyVal)
    (d0kvs gl : List (String × PyVal)) (g : Int)
    (h0 : PyVal.listIndex ds 0 = .ok (.dict d0kvs))
    (hk : PyVal.dictLookup d0kvs "data" = some (.int g))
    (hg : PyVal.listIndex ds g = .ok (.dict gl))
    (hgl : gl ≠ [])
    (hnd : (gl.map Prod.fst).Nodup)
    (hfield : ∀ p ∈ gl,
      PyVal.subscript (.list ds) p.2 = .ok (specResolveIndex ds p.2) ∧
      (∃ idxs, specResolveIndex ds p.2 = .list idxs ∧
        ∀ j ∈ idxs,
          PyVal.subscript (.list ds) j = .ok (specResolveIndex ds j) ∧
          ∃ kvs, specResolveIndex ds j = .dict kvs ∧
            ((kvs.map (fun p => p.1)).contains "limited" = true ∨
             ∀ q ∈ kvs, PyVal.subscript (.list ds) q.2 = .ok (specResolveIndex ds q.2)))) :
    RevenueDataController.extract_financial_data
      (.dict [("nodes", .list (n0 :: n1 :: .dict [("data", .list ds)] :: rest))]) =
      .ok (.dict (gl.map (fun p => (p.1, PyVal.list (specRevenueFieldRows ds p.2))))) :=
  revenue_extract_char n0 n1 rest ds d0kvs gl g h0 hk hg hgl hnd hfield

/-- C7 witness: an index list resolving to one plain record and one
`limited`-marked record yields only the plain record, with its own field
resolved one more level. -/
theorem claim_C7_revenue_inner_records_witness :
    RevenueDataController.extract_financial_data
      (.dict [("nodes", .list [.int 0, .int 0, .dict [("data", .list
        [.dict [("data", .int 1)],
         .dict [("revenueQ", .int 3)],
         .int 0,
         .list [.int 5, .int 7],
         .int 0,
         .dict [("rev", .int 9)],
         .int 0,
         .dict [("limited", .int 9)],
         .int 0,
         .int 42])]])]) =
      .ok (.dict [("revenueQ", .list [.dict [("rev", .int 42)]])]) := by
  have h := claim_C7_revenue_inner_records (.int 0) (.int 0) []
    [.dict [("data", .int 1)],
     .dict [("revenueQ", .int 3)],
     .int 0,
     .list [.int 5, .int 7],
     .int 0,
     .dict [("rev", .int 9)],
     .int 0,
     .dict [("limited", .int 9)],
     .int 0,
     .int 42]
    [("data", .int 1)] [("revenueQ", .int 3)] 1 rfl rfl rfl
    (by simp) (by simp)
    (by
      intro p hp
      simp only [List.mem_singleton] at hp
      subst hp
      refine ⟨rfl, [.int 5, .int 7], rfl, ?_⟩
      intro j hj
      simp only [List.mem_cons, List.not_mem_nil, or_false] at hj
      rcases hj with rfl | rfl
      · refine ⟨rfl, [("rev", .int 9)], rfl, Or.inr ?_⟩
        intro q hq
        simp only [List.mem_singleton] at hq
        subst hq
        rfl
      · exact ⟨rfl, [("limited", .int 9)], rfl, Or.inl rfl⟩)
  exact h.trans rfl

/-- Field lookup on a successful composed/envelope dictionary result. -/
def composedField (r : Except PyErr PyVal) (k : String) : Option PyVal :=
  match r with
  | .ok (.dict kvs) => PyVal.dictLookup kvs k
  | _ => Option.none

/-- The list of data-type keys in a composed result's `data` mapping. -/
def dataTypeKeys (r : Except PyErr PyVal) : List String :=
  match composedField r "data" with
  | some (.dict dkvs) => dkvs.map (fun p => p.1)
  | _ => []

theorem cf_ok_shape {t : String} {payload v : PyVal}
    (h : (CashFlowDataController.get_cash_flow_data t payload).result = .ok v) :
    ∃ d, v = .dict [("data_type", .str "cash_flow"), ("data", d)] := by
  unfold CashFlowDataController.get_cash_flow_data at h
  by_cases ht : t = ""
  · rw [if_pos ht] at h
    exact Except.noConfusion h
  · rw [if_neg ht] at h
    cases hf : CashFlowDataController.fetch_cash_flow_data payload with
    | error e =>
      rw [hf, except_bind_error] at h
      exact Except.noConfusion h
    | ok d =>
      rw [hf, except_bind_ok] at h
      exact ⟨d, (Except.ok.inj h).symm⟩

theorem rev_ok_shape {t : String} {payload v : PyVal}
    (h : (RevenueDataController.get_revenue_data t payload).result = .ok v) :
    ∃ d, v = .dict [("data_type", .str "revenue"), ("data", d)] := by
  unfold RevenueDataController.get_revenue_data at h
  by_cases ht : t = ""
  · rw [if_pos ht] at h
    exact Except.noConfusion h
  · rw [if_neg ht] at h
    cases hf : RevenueDataController.fetch_revenue_data payload with
    | error e =>
      rw [hf, except_bind_error] at h
      exact Except.noConfusion h
    | ok d =>
      rw [hf, except_bind_ok] at h
      exact ⟨d, (Except.ok.inj h).symm⟩

theorem bs_ok_shape {t : String} {payload v : PyVal}
    (h : (BalanceSheetDataController.get_balance_sheet_data t payload).result = .ok v) :
    ∃ d, v = .dict [("data_type", .str "balance_sheet"), ("data", d)] := by
  unfold BalanceSheetDataController.get_balance_sheet_data at h
  by_cases ht : t = ""
  · rw [if_pos ht] at h
    exact Except.noConfusion h
  · rw [if_neg ht] at h
    by_cases htr : PyVal.truthy payload = true
    · rw [if_neg (fun hc => hc htr)] at h
      cases hf : BalanceSheetDataController.extract_financial_data payload with
      | error e =>
        rw [hf, except_bind_error] at h
        exact Except.noConfusion h
      | ok d =>
        rw [hf, except_bind_ok] at h
        exact ⟨d, (Except.ok.inj h).symm⟩
    · rw [if_pos htr, except_bind_error] at h
      exact Except.noConfusion h

theorem inc_ok_shape {t period : String} {payload v : PyVal} (ht : t ≠ "")
    (h : (IncomeDataController.get_income_data t period payload).result = .ok v) :
    ∃ d, v = .dict [("data_type", .str "income"), ("data", d)] := by
  unfold IncomeDataController.get_income_data at h
  rw [if_neg ht] at h
  cases hf : IncomeDataController.fetch_income_data payload with
  | error e =>
    rw [hf, except_bind_error] at h
    exact Except.noConfusion h
  | ok d =>
    rw [hf, except_bind_ok] at h
    exact ⟨d, (Except.ok.inj h).symm⟩

theorem rat_ok_shape {t : String} {payload v : PyVal} (ht : t ≠ "")
    (h : (RatiosDataController.get_ratios_data t payload).result = .ok v) :
    ∃ d, v = .dict [("data_type", .str "ratios"), ("data", d)] := by
  unfold RatiosDataController.get_ratios_data at h
  rw [if_neg ht] at h
  cases hf : RatiosDataController.fetch_ratios_data payload with
  | error e =>
    rw [hf, except_bind_error] at h
    exact Except.noConfusion h
  | ok d =>
    rw [hf, except_bind_ok] at h
    exact ⟨d, (Except.ok.inj h).symm⟩

theorem validate_ts_ok {t a : String} {b : Bool}
    (h : TimeSeriesDataController.validate_ts_parameters t a = .ok b) : b = true := by
  unfold TimeSeriesDataController.validate_ts_parameters at h
  split_ifs at h
  exact (Except.ok.inj h).symm

theorem ts_ok_shape {tz : Int} {t a : String} {payload v : PyVal}
    (h : TimeSeriesDataController.get_asset_ts_data tz t a payload = .ok v) :
    ∃ d, v = .dict [("data_type", .str "time_series"), ("data", d)] := by
  unfold TimeSeriesDataController.get_asset_ts_data at h
  cases hv : TimeSeriesDataController.validate_ts_parameters t a with
  | error e =>
    rw [hv, except_bind_error] at h
    exact Except.noConfusion h
  | ok b =>
    have hb := validate_ts_ok hv
    subst hb
    rw [hv, except_bind_ok] at h
    rw [if_neg (show ¬¬(true = true) from fun hc => hc rfl)] at h
    cases hu : TimeSeriesDataController.build_url_from_ticker t a with
    | error e =>
      rw [hu, except_bind_error] at h
      exact Except.noConfusion h
    | ok u =>
      rw [hu, except_bind_ok] at h
      cases hd : TimeSeriesDataController.get_ts_data_from_url payload with
      | error e =>
        rw [hd, except_bind_error] at h
        exact Except.noConfusion h
      | ok dres =>
        rw [hd, except_bind_ok] at h
        by_cases htr : PyVal.truthy dres = true
        · rw [if_neg (fun hc => hc htr)] at h
          cases hi : dres.iterate with
          | error e =>
            rw [hi, except_bind_error] at h
            exact Except.noConfusion h
          | ok entries =>
            rw [hi, except_bind_ok] at h
            cases hm : entries.mapM (TimeSeriesDataController.convert_time_series_entry tz) with
            | error e =>
              rw [hm, except_bind_error] at h
              exact Except.noConfusion h
            | ok formatted =>
              rw [hm, except_bind_ok] at h
              exact ⟨.list formatted, (Except.ok.inj h).symm⟩
        · rw [if_pos htr] at h
          exact ⟨.task dres, (Except.ok.inj h).symm⟩

theorem hist_ok_shape {t a r p : String} {payload v : PyVal}
    (h : (HistoricalDataController.get_asset_historical_data t a r p payload).result = .ok v) :
    ∃ d, v = .dict [("data_type", .str "historical"), ("data", d)] := by
  unfold HistoricalDataController.get_asset_historical_data at h
  split at h
  · exact Except.noConfusion h
  · split at h
    · exact Except.noConfusion h
    · split at h
      · exact Except.noConfusion h
      · cases hd : HistoricalDataController.get_historical_data_from_url payload with
        | error e =>
          rw [hd, except_bind_error] at h
          exact Except.noConfusion h
        | ok dres =>
          rw [hd, except_bind_ok] at h
          by_cases htr : PyVal.truthy dres = true
          · rw [if_neg (fun hc => hc htr)] at h
            cases hi : dres.iterate with
            | error e =>
              rw [hi, except_bind_error] at h
              exact Except.noConfusion h
            | ok entries =>
              rw [hi, except_bind_ok] at h
              cases hm : entries.mapM HistoricalDataController.convert_keys_to_labels with
              | error e =>
                rw [hm, except_bind_error] at h
                exact Except.noConfusion h
              | ok formatted =>
                rw [hm, except_bind_ok] at h
                exact ⟨.list formatted, (Except.ok.inj h).symm⟩
          · rw [if_pos htr] at h
            exact ⟨.task dres, (Except.ok.inj h).symm⟩

theorem validate_hist_empty (a r p : String) :
    HistoricalDataController.validate_historical_parameters "" a r p =
      .error (.base "Invalid arguments") := by
  unfold HistoricalDataController.validate_historical_parameters
  rw [if_pos (Or.inl rfl)]

/-- C8: orchestration is all-or-nothing — if any fanned-out fetch fails, the
composition fails (no partial result); and a successful composition carries
the ticker, the asset class, and a `data` mapping whose keys are exactly the
orchestrator's fixed fetch set, each exactly once (stock: historical,
time_series, balance_sheet, cash_flow, income, ratios, revenue; ETF:
historical, time_series). -/
theorem claim_C8_fan_in_all_or_nothing :
    (∀ (tz : Int) (t : String) (p1 p2 p3 p4 p5 p6 p7 : PyVal),
      (exceptIsOk (HistoricalDataController.get_asset_historical_data t "s" "5Y" "Daily" p1).result &&
       exceptIsOk (TimeSeriesDataController.get_asset_ts_data tz t "s" p2) &&
       exceptIsOk (BalanceSheetDataController.get_balance_sheet_data t p3).result &&
       exceptIsOk (CashFlowDataController.get_cash_flow_data t p4).result &&
       exceptIsOk (IncomeDataController.get_income_data t "quarterly" p5).result &&
       exceptIsOk (RatiosDataController.get_ratios_data t p6).result &&
       exceptIsOk (RevenueDataController.get_revenue_data t p7).result) = false →
      exceptIsOk (StockDataOrchestrator.compose_stock_data tz t p1 p2 p3 p4 p5 p6 p7) = false) ∧
    (∀ (tz : Int) (t : String) (p1 p2 p3 p4 p5 p6 p7 : PyVal),
      exceptIsOk (StockDataOrchestrator.compose_stock_data tz t p1 p2 p3 p4 p5 p6 p7) = true →
      composedField (StockDataOrchestrator.compose_stock_data tz t p1 p2 p3 p4 p5 p6 p7)
        "ticker" = some (.str t) ∧
      composedField (StockDataOrchestrator.compose_stock_data tz t p1 p2 p3 p4 p5 p6 p7)
        "asset_type" = some (.str "stock") ∧
      dataTypeKeys (StockDataOrchestrator.compose_stock_data tz t p1 p2 p3 p4 p5 p6 p7) =
        ["historical", "time_series", "balance_sheet", "cash_flow", "income", "ratios",
         "revenue"]) ∧
    (∀ (tz : Int) (t : String) (p1 p2 : PyVal),
      (exceptIsOk (HistoricalDataController.get_asset_historical_data t "e" "5Y" "Daily" p1).result &&
       exceptIsOk (TimeSeriesDataController.get_asset_ts_data tz t "e" p2)) = false →
      exceptIsOk (ETFDataOrchestrator.compose_etf_data tz t p1 p2) = false) ∧
    (∀ (tz : Int) (t : String) (p1 p2 : PyVal),
      exceptIsOk (ETFDataOrchestrator.compose_etf_data tz t p1 p2) = true →
      composedField (ETFDataOrchestrator.compose_etf_data tz t p1 p2) "ticker" =
        some (.str t) ∧
      composedField (ETFDataOrchestrator.compose_etf_data tz t p1 p2) "asset_type" =
        some (.str "etf") ∧
      dataTypeKeys (ETFDataOrchestrator.compose_etf_data tz t p1 p2) =
        ["historical", "time_series"]) := by
  refine ⟨?_, ?_, ?_, ?_⟩
  · intro tz t p1 p2 p3 p4 p5 p6 p7 hall
    unfold StockDataOrchestrator.compose_stock_data
    cases h1 : (HistoricalDataController.get_asset_historical_data t "s" "5Y" "Daily" p1).result with
    | error e => rw [except_bind_error]; rfl
    | ok v1 =>
    rw [except_bind_ok]
    cases h2 : TimeSeriesDataController.get_asset_ts_data tz t "s" p2 with
    | error e => rw [except_bind_error]; rfl
    | ok v2 =>
    rw [except_bind_ok]
    cases h3 : (BalanceSheetDataController.get_balance_sheet_data t p3).result with
    | error e => rw [except_bind_error]; rfl
    | ok v3 =>
    rw [except_bind_ok]
    cases h4 : (CashFlowDataController.get_cash_flow_data t p4).result with
    | error e => rw [except_bind_error]; rfl
    | ok v4 =>
    rw [except_bind_ok]
    cases h5 : (IncomeDataController.get_income_data t "quarterly" p5).result with
    | error e => rw [except_bind_error]; rfl
    | ok v5 =>
    rw [except_bind_ok]
    cases h6 : (RatiosDataController.get_ratios_data t p6).result with
    | error e => rw [except_bind_error]; rfl
    | ok v6 =>
    rw [except_bind_ok]
    cases h7 : (RevenueDataController.get_revenue_data t p7).result with
    | error e => rw [except_bind_error]; rfl
    | ok v7 =>
    rw [h1, h2, h3, h4, h5, h6, h7] at hall
    simp [exceptIsOk] at hall
  · intro tz t p1 p2 p3 p4 p5 p6 p7 hok
    by_cases ht : t = ""
    · subst ht
      have h1 : (HistoricalDataController.get_asset_historical_data "" "s" "5Y" "Daily"
          p1).result = .error (.base "Invalid arguments") := by
        unfold HistoricalDataController.get_asset_historical_data
        rw [validate_hist_empty]
      unfold StockDataOrchestrator.compose_stock_data at hok
      rw [h1, except_bind_error] at hok
      simp [exceptIsOk] at hok
    · unfold StockDataOrchestrator.compose_stock_data at hok ⊢
      cases h1 : (HistoricalDataController.get_asset_historical_data t "s" "5Y" "Daily"
          p1).result with
      | error e =>
        rw [h1, except_bind_error] at hok
        simp [exceptIsOk] at hok
      | ok v1 =>
      obtain ⟨d1, rfl⟩ := hist_ok_shape h1
      rw [h1] at hok
      rw [except_bind_ok] at hok ⊢
      cases h2 : TimeSeriesDataController.get_asset_ts_data tz t "s" p2 with
      | error e =>
        rw [h2, except_bind_error] at hok
        simp [exceptIsOk] at hok
      | ok v2 =>
      obtain ⟨d2, rfl⟩ := ts_ok_shape h2
      rw [h2] at hok
      rw [except_bind_ok] at hok ⊢
      cases h3 : (BalanceSheetDataController.get_balance_sheet_data t p3).result with
      | error e =>
        rw [h3, except_bind_error] at hok
        simp [exceptIsOk] at hok
      | ok v3 =>
      obtain ⟨d3, rfl⟩ := bs_ok_shape h3
      rw [h3] at hok
      rw [except_bind_ok] at hok ⊢
      cases h4 : (CashFlowDataController.get_cash_flow_data t p4).result with
      | error e =>
        rw [h4, except_bind_error] at hok
        simp [exceptIsOk] at hok
      | ok v4 =>
      obtain ⟨d4, rfl⟩ := cf_ok_shape h4
      rw [h4] at hok
      rw [except_bind_ok] at hok ⊢
      cases h5 : (IncomeDataController.get_income_data t "quarterly" p5).result with
      | error e =>
        rw [h5, except_bind_error] at hok
        simp [exceptIsOk] at hok
      | ok v5 =>
      obtain ⟨d5, rfl⟩ := inc_ok_shape ht h5
      rw [h5] at hok
      rw [except_bind_ok] at hok ⊢
      cases h6 : (RatiosDataController.get_ratios_data t p6).result with
      | error e =>
        rw [h6, except_bind_error] at hok
        simp [exceptIsOk] at hok
      | ok v6 =>
      obtain ⟨d6, rfl⟩ := rat_ok_shape ht h6
      rw [h6] at hok
      rw [except_bind_ok] at hok ⊢
      cases h7 : (RevenueDataController.get_revenue_data t p7).result with
      | error e =>
        rw [h7, except_bind_error] at hok
        simp [exceptIsOk] at hok
      | ok v7 =>
      obtain ⟨d7, rfl⟩ := rev_ok_shape h7
      rw [h7] at hok
      rw [except_bind_ok] at hok ⊢
      exact ⟨rfl, rfl, rfl⟩
  · intro tz t p1 p2 hall
    unfold ETFDataOrchestrator.compose_etf_data
    cases h1 : (HistoricalDataController.get_asset_historical_data t "e" "5Y" "Daily" p1).result with
    | error e => rw [except_bind_error]; rfl
    | ok v1 =>
    rw [except_bind_ok]
    cases h2 : TimeSeriesDataController.get_asset_ts_data tz t "e" p2 with
    | error e => rw [except_bind_error]; rfl
    | ok v2 =>
    rw [h1, h2] at hall
    simp [exceptIsOk] at hall
  · intro tz t p1 p2 hok
    unfold ETFDataOrchestrator.compose_etf_data at hok ⊢
    cases h1 : (HistoricalDataController.get_asset_historical_data t "e" "5Y" "Daily"
        p1).result with
    | error e =>
      rw [h1, except_bind_error] at hok
      simp [exceptIsOk] at hok
    | ok v1 =>
    obtain ⟨d1, rfl⟩ := hist_ok_shape h1
    rw [h1] at hok
    rw [except_bind_ok] at hok ⊢
    cases h2 : TimeSeriesDataController.get_asset_ts_data tz t "e" p2 with
    | error e =>
      rw [h2, except_bind_error] at hok
      simp [exceptIsOk] at hok
    | ok v2 =>
    obtain ⟨d2, rfl⟩ := ts_ok_shape h2
    rw [h2] at hok
    rw [except_bind_ok] at hok ⊢
    exact ⟨rfl, rfl, rfl⟩

/-- C8 witness: with a ticker and seven decodable (or representably empty)
payloads every fetch succeeds and the composed result carries exactly the
seven stock data-type keys; blanking the cash-flow payload fails the whole
composition; the ETF orchestrator yields exactly its two keys. -/
theorem claim_C8_fan_in_all_or_nothing_witness :
    composedField (StockDataOrchestrator.compose_stock_data 0 "AAPL" (.dict []) (.dict [])
      (.dict [("nodes", .list [.int 0, .int 0, .dict [("data", .list
        [.dict [("financialData", .int 1)], .dict [("revenue", .int 5)],
         .int 0, .int 0, .int 0, .list [.int 10, .int 11],
         .int 0, .int 0, .int 0, .int 0, .int 100, .int 200])]])])
      (.dict [("nodes", .list [.int 0, .int 0, .dict [("data", .list
        [.dict [("financialData", .int 1)], .dict [("revenue", .int 5)],
         .int 0, .int 0, .int 0, .list [.int 10, .int 11],
         .int 0, .int 0, .int 0, .int 0, .int 100, .int 200])]])])
      (.dict [("nodes", .list [.int 0, .int 0, .dict [("data", .list
        [.dict [("financialData", .int 1)], .dict [("revenue", .int 5)],
         .int 0, .int 0, .int 0, .list [.int 10, .int 11],
         .int 0, .int 0, .int 0, .int 0, .int 100, .int 200])]])])
      (.dict [("nodes", .list [.int 0, .int 0, .dict [("data", .list
        [.dict [("financialData", .int 1)], .dict [("revenue", .int 5)],
         .int 0, .int 0, .int 0, .list [.int 10, .int 11],
         .int 0, .int 0, .int 0, .int 0, .int 100, .int 200])]])])
      (.dict [("nodes", .list [.int 0, .int 0, .dict [("data", .list
        [.dict [("data", .int 1)], .dict [("revenueQ", .int 3)],
         .int 0, .list [.int 5], .int 0, .dict [("rev", .int 9)],
         .int 0, .int 0, .int 0, .int 42])]])])) "ticker" = some (.str "AAPL") ∧
    composedField (StockDataOrchestrator.compose_stock_data 0 "AAPL" (.dict []) (.dict [])
      (.dict [("nodes", .list [.int 0, .int 0, .dict [("data", .list
        [.dict [("financialData", .int 1)], .dict [("revenue", .int 5)],
         .int 0, .int 0, .int 0, .list [.int 10, .int 11],
         .int 0, .int 0, .int 0, .int 0, .int 100, .int 200])]])])
      (.dict [("nodes", .list [.int 0, .int 0, .dict [("data", .list
        [.dict [("financialData", .int 1)], .dict [("revenue", .int 5)],
         .int 0, .int 0, .int 0, .list [.int 10, .int 11],
         .int 0, .int 0, .int 0, .int 0, .int 100, .int 200])]])])
      (.dict [("nodes", .list [.int 0, .int 0, .dict [("data", .list
        [.dict [("financialData", .int 1)], .dict [("revenue", .int 5)],
         .int 0, .int 0, .int 0, .list [.int 10, .int 11],
         .int 0, .int 0, .int 0, .int 0, .int 100, .int 200])]])])
      (.dict [("nodes", .list [.int 0, .int 0, .dict [("data", .list
        [.dict [("financialData", .int 1)], .dict [("revenue", .int 5)],
         .int 0, .int 0, .int 0, .list [.int 10, .int 11],
         .int 0, .int 0, .int 0, .int 0, .int 100, .int 200])]])])
      (.dict [("nodes", .list [.int 0, .int 0, .dict [("data", .list
        [.dict [("data", .int 1)], .dict [("revenueQ", .int 3)],
         .int 0, .list [.int 5], .int 0, .dict [("rev", .int 9)],
         .int 0, .int 0, .int 0, .int 42])]])])) "asset_type" = some (.str "stock") ∧
    dataTypeKeys (StockDataOrchestrator.compose_stock_data 0 "AAPL" (.dict []) (.dict [])
      (.dict [("nodes", .list [.int 0, .int 0, .dict [("data", .list
        [.dict [("financialData", .int 1)], .dict [("revenue", .int 5)],
         .int 0, .int 0, .int 0, .list [.int 10, .int 11],
         .int 0, .int 0, .int 0, .int 0, .int 100, .int 200])]])])
      (.dict [("nodes", .list [.int 0, .int 0, .dict [("data", .list
        [.dict [("financialData", .int 1)], .dict [("revenue", .int 5)],
         .int 0, .int 0, .int 0, .list [.int 10, .int 11],
         .int 0, .int 0, .int 0, .int 0, .int 100, .int 200])]])])
      (.dict [("nodes", .list [.int 0, .int 0, .dict [("data", .list
        [.dict [("financialData", .int 1)], .dict [("revenue", .int 5)],
         .int 0, .int 0, .int 0, .list [.int 10, .int 11],
         .int 0, .int 0, .int 0, .int 0, .int 100, .int 200])]])])
      (.dict [("nodes", .list [.int 0, .int 0, .dict [("data", .list
        [.dict [("financialData", .int 1)], .dict [("revenue", .int 5)],
         .int 0, .int 0, .int 0, .list [.int 10, .int 11],
         .int 0, .int 0, .int 0, .int 0, .int 100, .int 200])]])])
      (.dict [("nodes", .list [.int 0, .int 0, .dict [("data", .list
        [.dict [("data", .int 1)], .dict [("revenueQ", .int 3)],
         .int 0, .list [.int 5], .int 0, .dict [("rev", .int 9)],
         .int 0, .int 0, .int 0, .int 42])]])])) =
      ["historical", "time_series", "balance_sheet", "cash_flow", "income", "ratios",
       "revenue"] ∧
    exceptIsOk (StockDataOrchestrator.compose_stock_data 0 "AAPL" (.dict []) (.dict [])
      (.dict [("nodes", .list [.int 0, .int 0, .dict [("data", .list
        [.dict [("financialData", .int 1)], .dict [("revenue", .int 5)],
         .int 0, .int 0, .int 0, .list [.int 10, .int 11],
         .int 0, .int 0, .int 0, .int 0, .int 100, .int 200])]])])
      (.dict [])
      (.dict [("nodes", .list [.int 0, .int 0, .dict [("data", .list
        [.dict [("financialData", .int 1)], .dict [("revenue", .int 5)],
         .int 0, .int 0, .int 0, .list [.int 10, .int 11],
         .int 0, .int 0, .int 0, .int 0, .int 100, .int 200])]])])
      (.dict [("nodes", .list [.int 0, .int 0, .dict [("data", .list
        [.dict [("financialData", .int 1)], .dict [("revenue", .int 5)],
         .int 0, .int 0, .int 0, .list [.int 10, .int 11],
         .int 0, .int 0, .int 0, .int 0, .int 100, .int 200])]])])
      (.dict [("nodes", .list [.int 0, .int 0, .dict [("data", .list
        [.dict [("data", .int 1)], .dict [("revenueQ", .int 3)],
         .int 0, .list [.int 5], .int 0, .dict [("rev", .int 9)],
         .int 0, .int 0, .int 0, .int 42])]])])) = false ∧
    dataTypeKeys (ETFDataOrchestrator.compose_etf_data 0 "SCHD" (.dict []) (.dict [])) =
      ["historical", "time_series"] := by
  refine ⟨?_, ?_, ?_, ?_, ?_⟩
  · refine (claim_C8_fan_in_all_or_nothing.2.1 0 "AAPL" _ _ _ _ _ _ _ ?_).1
    rfl
  · refine (claim_C8_fan_in_all_or_nothing.2.1 0 "AAPL" _ _ _ _ _ _ _ ?_).2.1
    rfl
  · refine (claim_C8_fan_in_all_or_nothing.2.1 0 "AAPL" _ _ _ _ _ _ _ ?_).2.2
    rfl
  · refine claim_C8_fan_in_all_or_nothing.1 0 "AAPL" _ _ _ _ _ _ _ ?_
    rfl
  · refine (claim_C8_fan_in_all_or_nothing.2.2.2 0 "SCHD" _ _ ?_).2.2
    rfl
